import Mathlib

/-!
Verification development for the VNGEN visual-novel authoring tool.

Shallow embedding of the playback/compositing core:
  * `model.py`      — `TimelineModel` (tracks of keyframes, durations, serialization)
  * `core.py`       — `GameCore` (stateless-per-frame compositor state and render rules)
  * `vngen/layers.py` — `Layers` (active-block resolver, sprite interpolation)
  * `vngen/widget.py` — `GameWidget` (tick loop, enter events, jump/resync logic)
  * `effects.py` / `transitions.py` — `shake_offset`

Times, durations and alpha values are embedded as `ℚ` (the Python source uses
binary floats; all constants in the source are short decimals which are exact
in `ℚ`, and the arithmetic in the claims is carried out exactly).  Machine
truncation `int(x)` is modelled by `pyTrunc` (truncation toward zero), and
Python's banker's rounding `round(x)` by `pyRound`.
-/

/-! ### Python numeric primitives -/

/-- Python `int(x)` applied to a float: truncation toward zero. -/
def pyTrunc (q : ℚ) : ℤ :=
  if 0 ≤ q then Rat.floor q else -(Rat.floor (-q))

/-- Python `round(x)` for floats: round half to even (banker's rounding). -/
def pyRound (q : ℚ) : ℤ :=
  let f := Rat.floor q
  let r := q - (f : ℚ)
  if r < 1/2 then f
  else if 1/2 < r then f + 1
  else if f % 2 = 0 then f else f + 1

/-- Value of a digit string, most significant first. -/
def digitsVal (cs : List Char) : ℕ :=
  cs.foldl (fun a c => 10 * a + (c.toNat - 48)) 0

/-- ASCII lowering of one character (`str.lower()`; the engine only lowers
ASCII keyword strings such as track modes and fit names). -/
def charLower (c : Char) : Char :=
  if 'A' ≤ c ∧ c ≤ 'Z' then Char.ofNat (c.toNat + 32) else c

/-- Python `s.lower()`. -/
def pyLower (s : String) : String := ⟨s.toList.map charLower⟩

/-- The whitespace stripped by Python `str.strip()`. -/
def isPySpace (c : Char) : Bool := c = ' ' ∨ c = '\t' ∨ c = '\n' ∨ c = '\r'

/-- Strip leading and trailing whitespace from a character list. -/
def trimChars (cs : List Char) : List Char :=
  ((cs.dropWhile isPySpace).reverse.dropWhile isPySpace).reverse

/-- Python `s.strip()`. -/
def pyStrip (s : String) : String := ⟨trimChars s.toList⟩

/-- Model of Python's `float(s)` on strings: optional surrounding whitespace,
optional sign, decimal digits with an optional fractional part ("1", "1.", ".5",
"-2.75").  Exotic notations accepted by CPython (exponents, `inf`, `nan`,
underscores) are not modelled; every string exercised in this development is
either plainly numeric in this grammar or plainly non-numeric. -/
def parsePyFloat (s : String) : Option ℚ :=
  let cs := trimChars s.toList
  let signed : ℚ × List Char :=
    match cs with
    | '-' :: r => (-1, r)
    | '+' :: r => (1, r)
    | _ => (1, cs)
  let sign := signed.1
  let body := signed.2
  let intPart := body.takeWhile Char.isDigit
  let rest := body.dropWhile Char.isDigit
  match rest with
  | [] =>
    if intPart.isEmpty then none
    else some (sign * (digitsVal intPart : ℚ))
  | '.' :: frac =>
    if frac.all Char.isDigit ∧ (¬intPart.isEmpty ∨ ¬frac.isEmpty) then
      some (sign * ((digitsVal intPart : ℚ) +
        (digitsVal frac : ℚ) / (10 ^ frac.length : ℚ)))
    else none
  | _ => none

/-- Model of Python's `int(s)`-style conversion used for keyframe ids
(`int(it.get("id", -1))`): accepts an integer-valued argument. -/
def parsePyInt (s : String) : Option ℤ :=
  let cs := trimChars s.toList
  let signed : ℤ × List Char :=
    match cs with
    | '-' :: r => (-1, r)
    | '+' :: r => (1, r)
    | _ => (1, cs)
  if signed.2.isEmpty ∨ ¬signed.2.all Char.isDigit then none
  else some (signed.1 * (digitsVal signed.2 : ℤ))

/-- Stable sort (insertion sort).  Models Python's stable
`list.sort(key=lambda k: k.t)`: elements comparing equal keep their
original relative order (`x`, being earlier in the list than everything in
`ys`, goes before any equal-keyed element). -/
def insertByTime {α : Type} (key : α → ℚ) (x : α) : List α → List α
  | [] => [x]
  | y :: ys => if key y < key x then y :: insertByTime key x ys else x :: y :: ys

/-- Stable sort by a rational key; see `insertByTime`. -/
def sortByTime {α : Type} (key : α → ℚ) : List α → List α
  | [] => []
  | x :: xs => insertByTime key x (sortByTime key xs)

/-- First-match association-list lookup over string keys (Python `dict`
lookup; all construction sites keep keys unique). -/
def lookupStr {α : Type} (l : List (String × α)) (k : String) : Option α :=
  match l with
  | [] => none
  | p :: rest => if p.1 = k then some p.2 else lookupStr rest k

/-- Python `dict` insertion order semantics: overwriting an existing key keeps
its position, a new key is appended. -/
def dictInsert {α : Type} (l : List (String × α)) (k : String) (v : α) :
    List (String × α) :=
  match l with
  | [] => [(k, v)]
  | p :: rest => if p.1 = k then (k, v) :: rest else p :: dictInsert rest k v

/-! ### `model.py` — data model -/

/-- `TICK_SEC = 0.0333333` (`model.py`). -/
def TICK_SEC : ℚ := 333333 / 10000000

/-- One normalized option row of an active MENU block
(`{"text": ..., "to": seconds, "script"?: ..., "script_path"?: ...}`,
built by `GameWidget._update_visual_layers`). -/
structure NormOption where
  text : String
  toTime : ℚ
  script : Option String := none
  scriptPath : Option String := none
deriving DecidableEq, Repr

/-- A raw MENU option as stored in keyframe data: either a bare string or a
mapping with `text` / `target` / `to` / `script` / `script_path` /
`script_asset` entries.  The opaque `logic` payload (a structured action the
engine passes through verbatim) is not modelled; no embedded operation reads
it. -/
inductive MenuOption where
  | plain (s : String)
  | obj (text target toF script scriptPath scriptAsset : Option String)
deriving DecidableEq, Repr

/-- Typed projection of the open `data` mapping of a keyframe, covering every
key the embedded engine code reads.  A missing key is `none`; the per-site
Python defaults (`d.get(key, default)`) are applied by the accessors at each
use site, exactly as in the source.  The JSON key `"to"` is read as a string
by LOGIC/MENU code (`toStr`) and as a number by FX code (`toNum`); a concrete
keyframe only ever uses one of the two. -/
structure KfData where
  duration : Option ℚ := none
  value : String := ""
  speaker : Option String := none
  text : Option String := none
  cps : Option ℚ := none
  vol : Option ℚ := none
  typ : Option String := none
  name : Option String := none
  target : Option String := none
  toStr : Option String := none
  prompt : Option String := none
  options : List MenuOption := []
  fit : Option String := none
  align : Option String := none
  zoom : Option ℚ := none
  mode : Option String := none
  fromAlpha : Option ℚ := none
  fromNum : Option ℚ := none
  toAlpha : Option ℚ := none
  toNum : Option ℚ := none
  color : Option String := none
  amplitude : Option ℚ := none
  frequency : Option ℚ := none
  decay : Option ℚ := none
  seed : Option ℤ := none
  x : Option ℚ := none
  y : Option ℚ := none
  w : Option ℚ := none
  h : Option ℚ := none
  opacity : Option ℚ := none
  x2 : Option ℚ := none
  y2 : Option ℚ := none
  w2 : Option ℚ := none
  h2 : Option ℚ := none
  opacity2 : Option ℚ := none
deriving DecidableEq, Repr

/-- `Keyframe` dataclass (`model.py`): start time, owning track, payload,
process-unique id. -/
structure Keyframe where
  t : ℚ
  track : String
  data : KfData
  id : ℤ
deriving DecidableEq, Repr

/-- `TRACKS` (= `TRACK_ORDER` in `vngen/config.py`). -/
def TRACKS : List String :=
  ["BG", "SPRITE", "DIALOG", "SFX", "MUSIC", "FX", "MENU", "LOGIC"]

/-- `DEFAULT_TRACK_DURATIONS.get(track, 0.0)` (`vngen/config.py`). -/
def defaultTrackDuration (track : String) : ℚ :=
  if track = "BG" then 6/10
  else if track = "SPRITE" then 4/10
  else if track = "DIALOG" then 25/10
  else if track = "SFX" then 2/10
  else if track = "MUSIC" then 5
  else if track = "FX" then 6/10
  else if track = "MENU" then 30
  else if track = "LOGIC" then 1/100
  else 0

/-- In-memory state of `TimelineModel`: the fields the load/save and editing
claims quantify over (`_duration`, `tracks`, `_next_id`).  Qt signal plumbing,
dirty tracking and the project-file path are omitted; they carry no timeline
content. -/
structure TimelineModel where
  duration : ℚ
  tracks : List (String × List Keyframe)
  nextId : ℤ
deriving DecidableEq, Repr

/-- A fresh model: 60 s duration, all known tracks empty, ids from 1. -/
def TimelineModel.init : TimelineModel :=
  { duration := 60, tracks := TRACKS.map (fun n => (n, [])), nextId := 1 }

/-- `self.tracks.get(track, [])`. -/
def getTrack (m : TimelineModel) (track : String) : List Keyframe :=
  (lookupStr m.tracks track).getD []

/-- Replace the binding of an existing track name. -/
def updateTrack (tracks : List (String × List Keyframe)) (name : String)
    (arr : List Keyframe) : List (String × List Keyframe) :=
  tracks.map (fun p => if p.1 = name then (p.1, arr) else p)

/-- `self.tracks.setdefault(track, [])`: appends an empty bucket when the
track name is absent. -/
def setdefaultTrack (tracks : List (String × List Keyframe)) (name : String) :
    List (String × List Keyframe) :=
  match lookupStr tracks name with
  | some _ => tracks
  | none => tracks ++ [(name, [])]

/-- `TimelineModel._eff_duration`: track-specific duration policy.  Every
branch floors the result at `TICK_SEC`; MENU and LOGIC substitute the track
default for non-positive stored durations first. -/
def eff_duration (track : String) (k : Keyframe) : ℚ :=
  let base := defaultTrackDuration track
  let d := (k.data.duration).getD base
  if track = "BG" ∨ track = "SPRITE" ∨ track = "FX" ∨ track = "DIALOG" ∨
      track = "MUSIC" ∨ track = "SFX" then
    max d TICK_SEC
  else if track = "MENU" then
    max (if 0 < d then d else base) TICK_SEC
  else if track = "LOGIC" then
    max (if 0 < d then d else base) TICK_SEC
  else
    max d TICK_SEC

/-- `TimelineModel._set_duration`: the new value is stored only when it
differs from the current duration by more than `1e-6` (the change-signal
deadband). -/
def set_duration (m : TimelineModel) (value : ℚ) : TimelineModel :=
  if 1/1000000 < |value - m.duration| then { m with duration := value } else m

/-- The `longest` accumulator of `TimelineModel._recompute_duration`:
maximum of `k.t + eff_duration` over all keyframes of all tracks,
starting from `0.0`. -/
def longest_end (m : TimelineModel) : ℚ :=
  m.tracks.foldl
    (fun acc p => p.2.foldl (fun a k => max a (k.t + eff_duration p.1 k)) acc) 0

/-- `TimelineModel._recompute_duration`: recompute as the max end time floored
at 60 s, stored through the `_set_duration` deadband. -/
def recompute_duration (m : TimelineModel) : TimelineModel :=
  set_duration m (max (longest_end m) 60)

/-- `TimelineModel.keyframes_at(t0, t1)`: all `(track, keyframe)` pairs whose
start time lies in the open-closed interval `(t0, t1]`, after swapping the
bounds if given in reverse order. -/
def keyframes_at (m : TimelineModel) (t0 t1 : ℚ) : List (String × Keyframe) :=
  let lo := if t1 < t0 then t1 else t0
  let hi := if t1 < t0 then t0 else t1
  m.tracks.flatMap (fun p =>
    (p.2.filter (fun k => decide (lo < k.t ∧ k.t ≤ hi))).map (fun k => (p.1, k)))

/-- External collaborators of the embedded core, per spec §6: filesystem
probes, asset-path normalization/resolution, the audio length probe, image
decodability, and the main-window A/B loop settings read via `getattr`. -/
structure Env where
  fileExists : String → Bool
  resolve : String → String
  normalize : String → String
  guessAudio : String → ℚ
  imageLoads : String → Bool
  loopEnabled : Bool
  loopA : ℚ
  loopB : Option ℚ

/-- `TimelineModel.normalize_asset_value`: empty values pass through. -/
def normalize_asset_value (env : Env) (v : String) : String :=
  if v = "" then "" else env.normalize v

/-- `TimelineModel.resolve_asset_value`: empty values pass through. -/
def resolve_asset_value (env : Env) (v : String) : String :=
  if v = "" then "" else env.resolve v

/-- `TimelineModel.add_kf(track, kf, snap)`: assign the next id, optionally
snap the start time to the tick grid (Python `round`, half-to-even),
normalize the asset reference, fill in the default duration (probing the
audio length for MUSIC), insert keeping time order (stable sort), and extend
the total duration to cover the new keyframe's end. -/
def add_kf (env : Env) (m : TimelineModel) (track : String) (kf : Keyframe)
    (snap : Bool) : TimelineModel :=
  let tracks := setdefaultTrack m.tracks track
  let kf := { kf with track := track, id := m.nextId }
  let nextId := m.nextId + 1
  let kf := if snap then { kf with t := (pyRound (kf.t / TICK_SEC) : ℚ) * TICK_SEC }
            else kf
  let kf := { kf with data := { kf.data with value := normalize_asset_value env kf.data.value } }
  let kf :=
    match kf.data.duration with
    | some _ => kf
    | none =>
      if track = "MUSIC" then
        let length := env.guessAudio kf.data.value
        let dur := if 0 < length then length else defaultTrackDuration track
        { kf with data := { kf.data with duration := some dur } }
      else
        { kf with data := { kf.data with duration := some (defaultTrackDuration track) } }
  let bucket := sortByTime Keyframe.t ((lookupStr tracks track).getD [] ++ [kf])
  let m1 : TimelineModel :=
    { duration := m.duration, tracks := updateTrack tracks track bucket, nextId := nextId }
  let endT := kf.t + eff_duration track kf
  set_duration m1 (max m1.duration endT)

/-- `TimelineModel.remove_kf(track, kf_id)`: drop the keyframe with the given
id if present, then recompute the total duration. -/
def remove_kf (m : TimelineModel) (track : String) (kfId : ℤ) : TimelineModel :=
  let arr := getTrack m track
  let newArr := arr.filter (fun k => decide (k.id ≠ kfId))
  if newArr.length = arr.length then m
  else recompute_duration { m with tracks := updateTrack m.tracks track newArr }

/-! ### `core.py` — `GameCore` compositor state -/

/-- The `self.dialog` dict of `GameCore`:
`{"speaker", "text", "cps", "start", "end"}`. -/
structure DialogState where
  speaker : String
  text : String
  cps : ℚ
  start : ℚ
  endT : ℚ
deriving DecidableEq, Repr

/-- Background layer state (`bg_img`, `bg_prev`, `bg_xfade`, `bg_xstart`,
`bg_fit`, `bg_align`, `bg_zoom`).  Loaded surfaces are represented by the
path they were decoded from (`none` = no image / failed load). -/
structure BgState where
  img : Option String
  prev : Option String
  xfade : ℚ
  xstart : ℚ
  fit : String
  align : String
  zoom : ℚ
deriving DecidableEq, Repr

/-- `pygame.Rect` with integer coordinates. -/
structure Rect where
  x : ℤ
  y : ℤ
  w : ℤ
  h : ℤ
deriving DecidableEq, Repr

/-- Sprite layer state (`spr_img`, `spr_prev`, `spr_xfade`, `spr_xstart`,
`spr_rect`, `spr_opacity`). -/
structure SpriteState where
  img : Option String
  prev : Option String
  xfade : ℚ
  xstart : ℚ
  rect : Rect
  opacity : ℚ
deriving DecidableEq, Repr

/-- FX overlay state (`fx_mode`, `fx_color`, `fx_from`, `fx_to`,
`fx_start`, `fx_dur`). -/
structure FxState where
  mode : Option String
  color : ℤ × ℤ × ℤ
  fromA : ℚ
  toA : ℚ
  start : ℚ
  dur : ℚ
deriving DecidableEq, Repr

/-- Screen-shake parameters (`shake_start`, `shake_dur`, `shake_amp`,
`shake_freq`, `shake_decay`, `shake_seed`). -/
structure ShakeState where
  start : ℚ
  dur : ℚ
  amp : ℚ
  freq : ℚ
  decay : ℚ
  seed : ℤ
deriving DecidableEq, Repr

/-- The mutable per-frame state of `GameCore` (the fields its setters write
and `render_surface` reads).  `menu_layout` / `menu_hover_idx` are
render-scratch and omitted. -/
structure GameCoreState where
  bg : BgState
  spr : SpriteState
  dialog : DialogState
  fx : FxState
  shake : ShakeState
  menuActive : Bool
  menuPrompt : String
  menuOptions : List String
deriving DecidableEq, Repr

/-- `GameCore.__init__` state for a 960×540 core (the sprite rect is
`Rect(int(960*0.37), int(540*0.28), int(960*0.26), int(540*0.46))`). -/
def GameCoreState.init : GameCoreState :=
  { bg := { img := none, prev := none, xfade := 0, xstart := 0,
            fit := "cover", align := "center", zoom := 1 }
    spr := { img := none, prev := none, xfade := 0, xstart := 0,
             rect := { x := 355, y := 151, w := 249, h := 248 }, opacity := 1 }
    dialog := { speaker := "", text := "", cps := 24, start := -1, endT := -1 }
    fx := { mode := none, color := (0, 0, 0), fromA := 0, toA := 0, start := 0, dur := 0 }
    shake := { start := -1, dur := 0, amp := 0, freq := 0, decay := 5/2, seed := 0 }
    menuActive := false
    menuPrompt := ""
    menuOptions := [] }

/-- `GameCore._load_image`: a falsy path or a failed decode yields no
surface; a successful decode is represented by its path. -/
def load_image (env : Env) (path : Option String) : Option String :=
  match path with
  | none => none
  | some p => if p = "" then none else if env.imageLoads p then some p else none

/-- `GameCore.set_backgrounds_ex`. -/
def set_backgrounds_ex (env : Env) (g : GameCoreState)
    (cur prev : Option String) (xfade xstart : ℚ)
    (fit align : String) (zoom : ℚ) : GameCoreState :=
  { g with bg :=
      { img := load_image env cur
        prev := load_image env prev
        xfade := max 0 xfade
        xstart := xstart
        fit := pyLower (if fit = "" then "cover" else fit)
        align := if align = "" then "center" else align
        zoom := zoom } }

/-- `GameCore.set_sprite_layers`.  With no current descriptor only `spr_img`
is cleared (`spr_rect` / `spr_opacity` keep their previous values, exactly as
in the source); the crossfade window is always written. -/
def set_sprite_layers (env : Env) (g : GameCoreState)
    (cur prev : Option (String × Rect × ℚ)) (xfade xstart : ℚ) : GameCoreState :=
  let g :=
    match cur with
    | some (p, r, op) =>
      let img := load_image env (some p)
      { g with spr := { g.spr with img := img, rect := r, opacity := max 0 (min 1 op) } }
    | none => { g with spr := { g.spr with img := none } }
  let g :=
    match prev with
    | some (p2, _, _) => { g with spr := { g.spr with prev := load_image env (some p2) } }
    | none => { g with spr := { g.spr with prev := none } }
  { g with spr := { g.spr with xfade := max 0 xfade, xstart := xstart } }

/-- `GameCore.set_dialog`: the reveal rate is clamped to at least 1 cps on
ingestion (`Python strings pass through the falsy-or guards unchanged`). -/
def set_dialog (g : GameCoreState) (speaker text : String) (cps t_start t_end : ℚ) :
    GameCoreState :=
  { g with dialog :=
      { speaker := speaker, text := text, cps := max 1 cps,
        start := t_start, endT := t_end } }

/-- `GameCore.set_fx_overlay`. -/
def set_fx_overlay (g : GameCoreState) (mode : Option String) (dur fromA toA start : ℚ)
    (color : ℤ × ℤ × ℤ) : GameCoreState :=
  let m : Option String :=
    match mode with
    | none => none
    | some s => if s = "" then none else some (pyLower s)
  { g with fx := { mode := m, color := color, fromA := max 0 (min 1 fromA),
                   toA := max 0 (min 1 toA), start := start, dur := max 0 dur } }

/-- `GameCore.start_shake`. -/
def start_shake (g : GameCoreState) (start dur amp freq decay : ℚ) (seed : ℤ) :
    GameCoreState :=
  { g with shake := { start := start, dur := max 0 dur, amp := max 0 amp,
                      freq := max 0 freq, decay := max 0 decay, seed := seed } }

/-! ### `core.py` — render rules the claims quantify over -/

/-- The dialog-activity test of `GameCore.render_surface`:
`0 <= start <= playhead <= end and (speaker or text)`. -/
def dialog_active (g : GameCoreState) (t : ℚ) : Prop :=
  0 ≤ g.dialog.start ∧ g.dialog.start ≤ t ∧ t ≤ g.dialog.endT ∧
    (g.dialog.speaker ≠ "" ∨ g.dialog.text ≠ "")

instance (g : GameCoreState) (t : ℚ) : Decidable (dialog_active g t) := by
  unfold dialog_active; infer_instance

/-- Length of the Python slice `full[:j]` of a string of length `len`
(negative indices count from the end). -/
def pySliceLen (len : ℕ) (j : ℤ) : ℕ :=
  if 0 ≤ j then min len j.toNat else ((len : ℤ) + j).toNat

/-- The typewriter reveal of `GameCore.render_surface`:
`n = int(max(0.0, playhead - start) * cps)` and the rendered text is
`full[:min(len(full), n)]`; this is the number of visible characters. -/
def typed_count (g : GameCoreState) (t : ℚ) : ℕ :=
  let n := pyTrunc (max 0 (t - g.dialog.start) * g.dialog.cps)
  pySliceLen g.dialog.text.length (min (g.dialog.text.length : ℤ) n)

/-- The background crossfade branch of `GameCore.render_surface`: when both
surfaces are present and the playhead lies in the window
`[xstart, xstart + xfade]` (with `xfade > 0`), the previous / current blend
weights are `1 - p` and `p` for
`p = clamp01((playhead - xstart) / max(1e-6, xfade))`.
Returns `none` when the crossfade branch is not taken. -/
def bg_blend_alphas (g : GameCoreState) (t : ℚ) : Option (ℚ × ℚ) :=
  match g.bg.img, g.bg.prev with
  | some _, some _ =>
    if 0 < g.bg.xfade ∧ g.bg.xstart ≤ t ∧ t ≤ g.bg.xstart + g.bg.xfade then
      let p := max 0 (min 1 ((t - g.bg.xstart) / max (1/1000000) g.bg.xfade))
      some (1 - p, p)
    else none
  | _, _ => none

/-- The 8-bit surface alphas actually blitted for a background crossfade:
`int(255 * (1 - p))` and `int(255 * p)`. -/
def bg_blend_alpha255 (g : GameCoreState) (t : ℚ) : Option (ℤ × ℤ) :=
  (bg_blend_alphas g t).map (fun a => (pyTrunc (255 * a.1), pyTrunc (255 * a.2)))

/-! ### `vngen/layers.py` — active-block resolver -/

/-- `Layers.active_blocks(track, t)`: all keyframes of the track whose
`[t0, t0 + eff_duration]` window contains `t` up to a `1e-9` tolerance,
sorted by start time (stable). -/
def active_blocks (m : TimelineModel) (track : String) (t : ℚ) : List Keyframe :=
  let arr := getTrack m track
  let out := arr.filter (fun k =>
    decide (k.t - 1/1000000000 ≤ t ∧ t ≤ k.t + eff_duration track k + 1/1000000000))
  sortByTime Keyframe.t out

/-- `Layers.sprite_rect_opacity(k, t)` (the `vngen/layers.py` version with
pose interpolation): linearly interpolate the two poses by the clamped
progress within the block's effective duration, then build the pixel
rectangle with `int()` truncation.  `SPRITE_DEFAULTS`: center `(0.5, 0.62)`,
size `(0.26, 0.46)`, opacity `1.0`. -/
def sprite_rect_opacity (wScr hScr : ℤ) (k : Keyframe) (t : Option ℚ) : Rect × ℚ :=
  let d := k.data
  let x1 := d.x.getD (1/2)
  let y1 := d.y.getD (62/100)
  let w1 := d.w.getD (26/100)
  let h1 := d.h.getD (46/100)
  let op1 := d.opacity.getD 1
  let x2 := d.x2.getD x1
  let y2 := d.y2.getD y1
  let w2 := d.w2.getD w1
  let h2 := d.h2.getD h1
  let op2 := d.opacity2.getD op1
  let p : ℚ :=
    match t with
    | none => 0
    | some tv => max 0 (min 1 ((tv - k.t) / max (1/1000000) (eff_duration "SPRITE" k)))
  let x := x1 + (x2 - x1) * p
  let y := y1 + (y2 - y1) * p
  let w := w1 + (w2 - w1) * p
  let h := h1 + (h2 - h1) * p
  let op := op1 + (op2 - op1) * p
  let rect : Rect :=
    { x := pyTrunc ((1/2 - w / 2 + (x - 1/2)) * (wScr : ℚ))
      y := pyTrunc ((1/2 - h / 2 + (y - 1/2)) * (hScr : ℚ))
      w := pyTrunc ((wScr : ℚ) * w)
      h := pyTrunc ((hScr : ℚ) * h) }
  (rect, op)

/-- One hexadecimal digit (`int(c, 16)` accepts both cases). -/
def hexDigitVal (c : Char) : Option ℕ :=
  if c.isDigit then some (c.toNat - 48)
  else if 'a' ≤ c ∧ c ≤ 'f' then some (c.toNat - 87)
  else if 'A' ≤ c ∧ c ≤ 'F' then some (c.toNat - 55)
  else none

/-- `int(slice, 16)` of an up-to-two-character slice: fails when empty or
containing a non-hex character. -/
def hexPairVal (cs : List Char) : Option ℕ :=
  match cs with
  | [] => none
  | [c] => hexDigitVal c
  | c1 :: c2 :: _ =>
    match hexDigitVal c1, hexDigitVal c2 with
    | some v1, some v2 => some (16 * v1 + v2)
    | _, _ => none

/-- `Layers.hex_to_rgb`: strip, drop a leading `#`, expand a 3-digit form by
doubling each digit, then parse the slices `[0:2]`, `[2:4]`, `[4:6]`; any
parse failure yields black. -/
def hex_to_rgb (s : String) : ℤ × ℤ × ℤ :=
  let ss0 := trimChars s.toList
  let ss1 := match ss0 with
    | '#' :: rest => rest
    | _ => ss0
  let ss := if ss1.length = 3 then ss1.flatMap (fun c => [c, c]) else ss1
  match hexPairVal (ss.take 2), hexPairVal (ss.drop 2 |>.take 2),
      hexPairVal (ss.drop 4 |>.take 2) with
  | some r, some g, some b => ((r : ℤ), (g : ℤ), (b : ℤ))
  | _, _, _ => (0, 0, 0)

/-! ### `vngen/widget.py` — playback / logic state machine -/

/-- The mutable state of `GameWidget` relevant to playback: playhead,
play flag, dialog/music end gates, mutes, the label index cache, modal menu
state, the deferred jump slot, the compositor state, the currently streaming
music `(resolved path, volume, start offset)`, and the log of one-shot SFX
fired so far (audio side effects are recorded rather than performed).
Qt widgets, drag state and wall-clock bookkeeping are omitted. -/
structure WidgetState where
  playhead : ℚ
  playing : Bool
  dialogEnd : ℚ
  musicEnd : ℚ
  musicPaused : Bool
  muteSfx : Bool
  muteMusic : Bool
  labelIndex : List (String × ℚ)
  menuActive : Bool
  menuPrompt : String
  menuOptions : List NormOption
  menuKfId : Option ℤ
  menuActiveKf : Option Keyframe
  pendingJump : Option ℚ
  game : GameCoreState
  music : Option (String × ℚ × ℚ)
  sfxLog : List (String × ℚ)
deriving DecidableEq, Repr

/-- `GameWidget.__init__` state. -/
def WidgetState.init : WidgetState :=
  { playhead := 0, playing := false, dialogEnd := -1, musicEnd := -1,
    musicPaused := false, muteSfx := false, muteMusic := false,
    labelIndex := [], menuActive := false, menuPrompt := "Choose:",
    menuOptions := [], menuKfId := none, menuActiveKf := none,
    pendingJump := none, game := GameCoreState.init, music := none, sfxLog := [] }

/-- `GameWidget._rebuild_labels`: name → time index over LOGIC blocks of
type `label` with a non-empty stripped name; later blocks overwrite earlier
ones (dict assignment). -/
def rebuild_labels (m : TimelineModel) : List (String × ℚ) :=
  (getTrack m "LOGIC").foldl
    (fun idx k =>
      if pyLower (k.data.typ.getD "") = "label" then
        let name := pyStrip (k.data.name.getD "")
        if name = "" then idx else dictInsert idx name k.t
      else idx) []

/-- `GameWidget._resolve_target_to_time`: label lookup, then numeric parse,
then the caller-supplied default.  Total — never raises. -/
def resolve_target_to_time (idx : List (String × ℚ)) (target : String)
    (default : ℚ) : ℚ :=
  match lookupStr idx target with
  | some v => v
  | none => (parsePyFloat target).getD default

/-- `GameWidget._exec_logic_action` on a data mapping
(`{type, target?, to?}`; the `LogicAction` dataclass branch carries the same
two fields): jump/goto/loop schedule a deferred jump, pause/stop and
resume/play toggle the playing flag, anything else is ignored. -/
def exec_logic_action (s : WidgetState) (d : KfData) : WidgetState :=
  let ty := pyLower (d.typ.getD "")
  let targetVal := d.target.getD (d.toStr.getD "")
  if ty = "jump" ∨ ty = "goto" ∨ ty = "loop" then
    let tgt := resolve_target_to_time s.labelIndex targetVal s.playhead
    { s with pendingJump := some tgt }
  else if ty = "pause" ∨ ty = "stop" then { s with playing := false }
  else if ty = "resume" ∨ ty = "play" then { s with playing := true }
  else s

/-- `GameWidget._apply_dialog_block`: push the block's speaker / text / cps
and time window into the compositor and remember the end gate. -/
def apply_dialog_block (m : TimelineModel) (k : Keyframe) (s : WidgetState) :
    WidgetState :=
  let effEnd := k.t + eff_duration "DIALOG" k
  let g := set_dialog s.game (k.data.speaker.getD "") (k.data.text.getD "")
    (k.data.cps.getD 24) k.t effEnd
  { s with game := g, dialogEnd := effEnd }

/-- `GameWidget._start_music_block`: resolve the asset; when the file exists
start streaming from the clamped offset and remember the end gate, otherwise
stop music. -/
def start_music_block (env : Env) (m : TimelineModel) (k : Keyframe)
    (offset : Option ℚ) (s : WidgetState) : WidgetState :=
  if s.muteMusic then s
  else
    let path := resolve_asset_value env k.data.value
    let vol := k.data.vol.getD 1
    if env.fileExists path then
      let off := match offset with
                 | none => max 0 (s.playhead - k.t)
                 | some o => max 0 o
      { s with music := some (path, vol, off),
               musicEnd := k.t + eff_duration "MUSIC" k, musicPaused := false }
    else
      { s with music := none, musicEnd := -1, musicPaused := false }

/-- `GameWidget._apply_keyframe_enter`: per-track enter events.  DIALOG sets
the dialog window, SFX fires a one-shot sound (recorded in `sfxLog`), MUSIC
starts streaming at offset 0, LOGIC executes its action.  The optional
opaque script hook attached to LOGIC blocks (`script_path`, executed as an
external callable per spec §6) is not modelled. -/
def apply_keyframe_enter (env : Env) (m : TimelineModel) (s : WidgetState)
    (track : String) (k : Keyframe) : WidgetState :=
  if track = "DIALOG" then apply_dialog_block m k s
  else if track = "SFX" then
    if s.muteSfx then s
    else
      let path := resolve_asset_value env k.data.value
      let vol := k.data.vol.getD 1
      if env.fileExists path then { s with sfxLog := s.sfxLog ++ [(path, vol)] }
      else s
  else if track = "MUSIC" then start_music_block env m k (some 0) s
  else if track = "LOGIC" then exec_logic_action s k.data
  else s

/-- `GameWidget._sync_states_for_current_time`: clear the dialog / music /
menu gates and modal menu state, stop music, then re-derive the dialog from
the DIALOG blocks active at the current playhead and (when playing and not
muted) restart music at offset `playhead - block.start`.  Fires no SFX. -/
def sync_states_for_current_time (env : Env) (m : TimelineModel)
    (s : WidgetState) : WidgetState :=
  let s := { s with dialogEnd := -1, musicEnd := -1, musicPaused := false,
                    music := none, menuActive := false, menuOptions := [],
                    menuKfId := none, menuActiveKf := none }
  let s :=
    match (active_blocks m "DIALOG" s.playhead).getLast? with
    | some k => apply_dialog_block m k s
    | none => { s with game := set_dialog s.game "" "" 24 (-1) (-1) }
  match (active_blocks m "MUSIC" s.playhead).getLast? with
  | some k =>
    if s.playing = true ∧ s.muteMusic = false then
      start_music_block env m k (some (s.playhead - k.t)) s
    else s
  | none => s

/-- `GameWidget._bg_params`: fit (lowercased), align, zoom with defaults. -/
def bg_params (k : Keyframe) : String × String × ℚ :=
  (pyLower (k.data.fit.getD "cover"), k.data.align.getD "center",
    k.data.zoom.getD 1)

/-- BG section of `GameWidget._update_visual_layers`: zero, one, or two-plus
active blocks; with two, crossfade exactly when the previous block's end
overlaps the current block's start. -/
def bg_section (env : Env) (m : TimelineModel) (t : ℚ) (g : GameCoreState) :
    GameCoreState :=
  let ov := active_blocks m "BG" t
  match ov.getLast?, ov.dropLast.getLast? with
  | none, _ => set_backgrounds_ex env g none none 0 0 "cover" "center" 1
  | some cur, none =>
    let curPath := resolve_asset_value env cur.data.value
    let fz := bg_params cur
    set_backgrounds_ex env g (some curPath) none 0 0 fz.1 fz.2.1 fz.2.2
  | some cur, some prev =>
    let curPath := resolve_asset_value env cur.data.value
    let prevPath := resolve_asset_value env prev.data.value
    let prevEnd := prev.t + eff_duration "BG" prev
    let overlap := prevEnd - cur.t
    let fz := bg_params cur
    if 0 < overlap then
      set_backgrounds_ex env g (some curPath) (some prevPath) overlap cur.t
        fz.1 fz.2.1 fz.2.2
    else
      set_backgrounds_ex env g (some curPath) none 0 0 fz.1 fz.2.1 fz.2.2

/-- SPRITE section of `GameWidget._update_visual_layers` (960×540 core). -/
def spr_section (env : Env) (m : TimelineModel) (t : ℚ) (g : GameCoreState) :
    GameCoreState :=
  let ov := active_blocks m "SPRITE" t
  match ov.getLast?, ov.dropLast.getLast? with
  | none, _ => set_sprite_layers env g none none 0 0
  | some cur, none =>
    let ro := sprite_rect_opacity 960 540 cur (some t)
    let curPath := resolve_asset_value env cur.data.value
    set_sprite_layers env g (some (curPath, ro.1, ro.2)) none 0 0
  | some cur, some prev =>
    let prevEnd := prev.t + eff_duration "SPRITE" prev
    let overlap := prevEnd - cur.t
    let roCur := sprite_rect_opacity 960 540 cur (some t)
    let roPrev := sprite_rect_opacity 960 540 prev (some t)
    let curPath := resolve_asset_value env cur.data.value
    let prevPath := resolve_asset_value env prev.data.value
    if 0 < overlap then
      set_sprite_layers env g (some (curPath, roCur.1, roCur.2))
        (some (prevPath, roPrev.1, 1)) overlap cur.t
    else
      set_sprite_layers env g (some (curPath, roCur.1, roCur.2)) none 0 0

/-- FX section of `GameWidget._update_visual_layers`: the latest active FX
block configures a fade overlay or a screen shake; with no active block the
overlay is cleared. -/
def fx_section (m : TimelineModel) (t : ℚ) (g : GameCoreState) :
    GameCoreState :=
  let ov := active_blocks m "FX" t
  match ov.getLast? with
  | none => set_fx_overlay g none 0 0 0 t (0, 0, 0)
  | some fxk =>
    let d := fxk.data
    let mode := pyLower (d.mode.getD "")
    let dur := d.duration.getD 1
    let fa := d.fromAlpha.getD (d.fromNum.getD 0)
    let ta := d.toAlpha.getD (d.toNum.getD 1)
    let color := hex_to_rgb (d.color.getD "#000000")
    if mode = "black" ∨ mode = "white" ∨ mode = "translucent" then
      set_fx_overlay g (some mode) dur fa ta fxk.t color
    else if mode = "shake" then
      start_shake g fxk.t dur (d.amplitude.getD 16) (d.frequency.getD 12)
        (d.decay.getD (5/2)) (d.seed.getD 0)
    else g

/-- MENU option normalization of `GameWidget._update_visual_layers`:
each mapping option resolves its `target` (falling back to `to`) through the
label index into absolute seconds with the current playhead as default;
bare-string options become rows jumping to the current time. -/
def normalize_menu_options (labelIdx : List (String × ℚ)) (t : ℚ)
    (opts : List MenuOption) : List NormOption :=
  opts.map (fun opt =>
    match opt with
    | .plain s => { text := s, toTime := t }
    | .obj text target toF script scriptPath scriptAsset =>
      let txt0 := pyStrip (text.getD "")
      let txt := if txt0 = "" then "(option)" else txt0
      let targetRaw := target.getD (toF.getD "")
      let toTime := resolve_target_to_time labelIdx targetRaw t
      let sc0 := pyStrip (script.getD "")
      let spRaw :=
        match scriptPath with
        | some s => if s = "" then scriptAsset.getD "" else s
        | none => scriptAsset.getD ""
      let sp0 := pyStrip spRaw
      { text := txt, toTime := toTime,
        script := if sc0 = "" then none else some sc0,
        scriptPath := if sp0 = "" then none else some sp0 })

/-- MENU section of `GameWidget._update_visual_layers`: an active MENU block
installs the modal menu (prompt + normalized options) and pauses playback;
with none active the menu state is left as is (cleared only by selection or
a resync). -/
def menu_section (m : TimelineModel) (t : ℚ) (s : WidgetState) : WidgetState :=
  let ov := active_blocks m "MENU" t
  match ov.getLast? with
  | none => s
  | some mk =>
    { s with menuKfId := some mk.id, menuActiveKf := some mk,
             menuPrompt := mk.data.prompt.getD "Choose:",
             menuOptions := normalize_menu_options s.labelIndex t mk.data.options,
             playing := false, menuActive := true }

/-- `GameWidget._update_visual_layers`: recompute every compositor layer
input (background, sprite, FX/shake, modal menu) for the current playhead. -/
def update_visual_layers (env : Env) (m : TimelineModel) (s : WidgetState) :
    WidgetState :=
  let t := s.playhead
  let g := bg_section env m t s.game
  let g := spr_section env m t g
  let g := fx_section m t g
  menu_section m t { s with game := g }

/-- The `if self._playing:` block of `GameWidget._tick`: advance the
playhead by the clamped delta, apply the A/B preview loop-back, fire the
enter events of every keyframe starting in `(prev, playhead]`, then apply
the dialog / music end gates.  Returns the state and the loop-back `jumped`
flag. -/
def tick_playing_phase (env : Env) (m : TimelineModel) (s : WidgetState)
    (dt : ℚ) : WidgetState × Bool :=
  if s.playing then
    let prev := s.playhead
    let ph := min m.duration (s.playhead + dt)
    let loop :=
      if env.loopEnabled then
        let a := env.loopA
        let b := (env.loopB).getD m.duration
        if a + 1/1000000 < b ∧ b ≤ ph then (a, a - TICK_SEC, true)
        else (ph, prev, false)
      else (ph, prev, false)
    let s := { s with playhead := loop.1 }
    let s := (keyframes_at m loop.2.1 s.playhead).foldl
      (fun st p => apply_keyframe_enter env m st p.1 p.2) s
    let s :=
      if 0 ≤ s.dialogEnd ∧ s.dialogEnd + 1/1000000 < s.playhead then
        { s with game := set_dialog s.game "" "" 24 (-1) (-1) }
      else s
    let s :=
      if 0 ≤ s.musicEnd ∧ s.musicEnd + 1/1000000 < s.playhead then
        { s with music := none, musicPaused := false }
      else s
    (s, loop.2.2)
  else (s, false)

/-- The pending-jump paragraph of `GameWidget._tick`: apply a jump scheduled
by LOGIC, clamped into `[0, duration]`, and set the `jumped` flag. -/
def tick_jump_phase (m : TimelineModel) (sj : WidgetState × Bool) :
    WidgetState × Bool :=
  match sj.1.pendingJump with
  | some j =>
    ({ sj.1 with playhead := max 0 (min m.duration j), pendingJump := none }, true)
  | none => (sj.1, sj.2)

/-- `GameWidget._tick` with the wall-clock delta `dtRaw` as input (clamped to
`[0, 0.05]` as in the source).  Returns the new state and the `jumped` flag
(true when an A/B loop-back or a pending LOGIC jump moved the playhead
non-linearly, which triggers `sync_states_for_current_time`). -/
def tickAux (env : Env) (m : TimelineModel) (s : WidgetState) (dtRaw : ℚ) :
    WidgetState × Bool :=
  let dt := max 0 (min (1/20) dtRaw)
  let s := { s with labelIndex := rebuild_labels m }
  let sj2 := tick_jump_phase m (tick_playing_phase env m s dt)
  let s2 := if sj2.2 then sync_states_for_current_time env m sj2.1 else sj2.1
  (update_visual_layers env m s2, sj2.2)

/-- `GameWidget._tick`, state part. -/
def tick (env : Env) (m : TimelineModel) (s : WidgetState) (dtRaw : ℚ) :
    WidgetState :=
  (tickAux env m s dtRaw).1

/-- `GameWidget.scrub_to`: clamp the target into `[0, duration]`, drop any
pending jump, resynchronize derived state and recompute the layers — the
"direct resync at `t`" of the spec. -/
def scrub_to (env : Env) (m : TimelineModel) (s : WidgetState) (t : ℚ) :
    WidgetState :=
  let s := { s with playhead := max 0 (min m.duration t), pendingJump := none }
  update_visual_layers env m (sync_states_for_current_time env m s)

/-- Resynchronization pipeline applied after any non-linear playhead change:
`_sync_states_for_current_time` followed by `_update_visual_layers`
(this is the tail of `_tick` when `jumped` is set, and of `scrub_to`). -/
def resync_at (env : Env) (m : TimelineModel) (s : WidgetState) : WidgetState :=
  update_visual_layers env m (sync_states_for_current_time env m s)

/-- The renderable sprite layer: `render_surface` draws nothing when
`spr_img` is unset, so stale `spr_rect` / `spr_opacity` values are not
observable. -/
def spriteView (sp : SpriteState) :
    Option (String × Rect × ℚ × Option String × ℚ × ℚ) :=
  match sp.img with
  | none => none
  | some p => some (p, sp.rect, sp.opacity, sp.prev, sp.xfade, sp.xstart)

/-- The observable modal-menu state: prompt, normalized options and owning
keyframe id when a menu is up, nothing otherwise. -/
def menuView (s : WidgetState) : Option (String × List NormOption × Option ℤ) :=
  if s.menuActive then some (s.menuPrompt, s.menuOptions, s.menuKfId) else none

/-- The derived dialog / background / sprite / menu state the resync claims
compare (one-shot SFX and the music stream are deliberately excluded by the
spec's idempotent-resync property). -/
def derived_view (s : WidgetState) :
    DialogState × ℚ × BgState × Option (String × Rect × ℚ × Option String × ℚ × ℚ) ×
      Option (String × List NormOption × Option ℤ) :=
  (s.game.dialog, s.dialogEnd, s.game.bg, spriteView s.game.spr, menuView s)

/-! ### `model.py` — `load_json` deserialization -/

/-- JSON values as produced by `json.loads`. -/
inductive JValue where
  | null
  | bool (b : Bool)
  | num (q : ℚ)
  | str (s : String)
  | arr (items : List JValue)
  | obj (fields : List (String × JValue))

/-- `doc.get(key)` on a parsed JSON object. -/
def JValue.getField : JValue → String → Option JValue
  | .obj fields, k => lookupStr fields k
  | _, _ => none

/-- Python truthiness of a JSON value. -/
def pyTruthy : JValue → Bool
  | .null => false
  | .bool b => b
  | .num q => q ≠ 0
  | .str s => s ≠ ""
  | .arr xs => ¬xs.isEmpty
  | .obj fs => ¬fs.isEmpty

/-- Python `float(x)` on a JSON value; `none` models a raised exception. -/
def pyFloatOfJson : JValue → Option ℚ
  | .num q => some q
  | .bool b => some (if b then 1 else 0)
  | .str s => parsePyFloat s
  | _ => none

/-- Python `int(x)` on a JSON value; `none` models a raised exception. -/
def pyIntOfJson : JValue → Option ℤ
  | .num q => some (pyTrunc q)
  | .bool b => some (if b then 1 else 0)
  | .str s => parsePyInt s
  | _ => none

/-- Read a string-typed data field (non-string values at these keys are not
modelled; the engine only ever writes strings there). -/
def strField (fs : List (String × JValue)) (k : String) : Option String :=
  match lookupStr fs k with
  | some (.str s) => some s
  | _ => none

/-- Read a number-typed data field. -/
def numField (fs : List (String × JValue)) (k : String) : Option ℚ :=
  match lookupStr fs k with
  | some (.num q) => some q
  | _ => none

/-- Read an integer-typed data field (for `seed`). -/
def intField (fs : List (String × JValue)) (k : String) : Option ℤ :=
  match lookupStr fs k with
  | some (.num q) => some (pyTrunc q)
  | _ => none

/-- One raw MENU option out of JSON.  Non-string non-mapping options are
coerced through `str(opt)` by the engine; only the string and mapping forms
are modelled. -/
def MenuOption.ofJson : JValue → MenuOption
  | .str s => .plain s
  | .obj fs => .obj (strField fs "text") (strField fs "target") (strField fs "to")
      (strField fs "script") (strField fs "script_path") (strField fs "script_asset")
  | _ => .plain ""

/-- Typed projection of a keyframe `data` mapping out of JSON, covering the
keys the engine reads (see `KfData`). -/
def KfData.ofJson (fs : List (String × JValue)) : KfData :=
  { duration := numField fs "duration"
    value := (strField fs "value").getD ""
    speaker := strField fs "speaker"
    text := strField fs "text"
    cps := numField fs "cps"
    vol := numField fs "vol"
    typ := strField fs "type"
    name := strField fs "name"
    target := strField fs "target"
    toStr := strField fs "to"
    prompt := strField fs "prompt"
    options := (match lookupStr fs "options" with
                | some (.arr xs) => xs.map MenuOption.ofJson
                | _ => [])
    fit := strField fs "fit"
    align := strField fs "align"
    zoom := numField fs "zoom"
    mode := strField fs "mode"
    fromAlpha := numField fs "from_alpha"
    fromNum := numField fs "from"
    toAlpha := numField fs "to_alpha"
    toNum := numField fs "to"
    color := strField fs "color"
    amplitude := numField fs "amplitude"
    frequency := numField fs "frequency"
    decay := numField fs "decay"
    seed := intField fs "seed"
    x := numField fs "x"
    y := numField fs "y"
    w := numField fs "w"
    h := numField fs "h"
    opacity := numField fs "opacity"
    x2 := numField fs "x2"
    y2 := numField fs "y2"
    w2 := numField fs "w2"
    h2 := numField fs "h2"
    opacity2 := numField fs "opacity2" }

/-- Parse one serialized keyframe item inside `load_json`; `none` models a
raised exception (non-mapping item, non-mapping `data`, unparseable `t` or
`id`).  On success returns the keyframe and the updated `_next_id`. -/
def load_item (env : Env) (tr : String) (it : JValue) (nextId : ℤ) :
    Option (Keyframe × ℤ) :=
  match it with
  | .obj ifs =>
    let dataRes : Option (List (String × JValue)) :=
      match lookupStr ifs "data" with
      | none => some []
      | some (.obj dfs) => some dfs
      | some _ => none
    (match dataRes with
    | none => none
    | some dfs =>
      let d0 := KfData.ofJson dfs
      let d := { d0 with value := normalize_asset_value env d0.value }
      match pyFloatOfJson ((lookupStr ifs "t").getD (.num 0)) with
      | none => none
      | some tval =>
        match pyIntOfJson ((lookupStr ifs "id").getD (.num (-1))) with
        | none => none
        | some idv =>
          let k : Keyframe := { t := tval, track := tr, data := d, id := idv }
          if k.id < 0 then some ({ k with id := nextId }, nextId + 1)
          else some (k, max nextId (k.id + 1)))
  | _ => none

/-- The item loop of `load_json` for one track: thread the bucket and
`_next_id` through the items; on a raise, return what was already appended
(the source mutates the bucket in place) with the error flag set. -/
def load_items (env : Env) (tr : String) :
    List JValue → List Keyframe → ℤ → List Keyframe × ℤ × Bool
  | [], bucket, nid => (bucket, nid, false)
  | it :: rest, bucket, nid =>
    match load_item env tr it nid with
    | none => (bucket, nid, true)
    | some (k, nid2) => load_items env tr rest (bucket ++ [k]) nid2

/-- Process one `(trackName, serializedList)` entry of the document's
`tracks` mapping: `setdefault` the bucket, iterate `(arr or [])` (a truthy
non-list raises), then sort the bucket by time — the sort is skipped when an
item raised.  Returns the updated state and an error flag. -/
def load_track_entry (env : Env) (st : TimelineModel) (tr : String)
    (arrv : JValue) : TimelineModel × Bool :=
  let tracks := setdefaultTrack st.tracks tr
  let bucket := (lookupStr tracks tr).getD []
  if pyTruthy arrv = false then ({ st with tracks := tracks }, false)
  else
    match arrv with
    | .arr items =>
      let r := load_items env tr items bucket st.nextId
      if r.2.2 then
        ({ st with tracks := updateTrack tracks tr r.1, nextId := r.2.1 }, true)
      else
        ({ st with tracks := updateTrack tracks tr (sortByTime Keyframe.t r.1),
                   nextId := r.2.1 }, false)
    | _ => ({ st with tracks := tracks }, true)

/-- The track loop of `load_json`: stop at the first raising entry. -/
def load_tracks_loop (env : Env) :
    List (String × JValue) → TimelineModel → TimelineModel × Bool
  | [], st => (st, false)
  | (tr, arrv) :: rest, st =>
    let r := load_track_entry env st tr arrv
    if r.2 then (r.1, true) else load_tracks_loop env rest r.1

/-- Outcome of a load: success with the new state, or a raised exception
with the in-memory state as of the raise. -/
inductive LoadResult where
  | ok (m : TimelineModel)
  | err (state : TimelineModel)

/-- The `set_project_file(doc.get("projectFile"))` step of `load_json`: it
mutates no timeline field, but `Path()` raises on a truthy non-string. -/
def project_file_ok (doc : JValue) : Bool :=
  match doc.getField "projectFile" with
  | none => true
  | some v => if pyTruthy v then (match v with | .str _ => true | _ => false) else true

/-- `TimelineModel.load_json` on an already-parsed document, mirroring the
statement order of the source: the `projectFile` step, then
`self._duration = float(doc.get("duration", 60.0))`, then the reset of
`tracks` and `_next_id`, then the per-track item loop, the `TRACKS`
back-fill, and `_recompute_duration`.  An exception after the reset leaves
the partially mutated state behind. -/
def load_json_doc (env : Env) (doc : JValue) (m : TimelineModel) : LoadResult :=
  if project_file_ok doc = false then .err m
  else
    match pyFloatOfJson ((doc.getField "duration").getD (.num 60)) with
    | none => .err m
    | some dur =>
      let st : TimelineModel :=
        { duration := dur, tracks := TRACKS.map (fun n => (n, [])), nextId := 1 }
      let tval0 := (doc.getField "tracks").getD (.obj [])
      let tval := if pyTruthy tval0 then tval0 else .obj []
      match tval with
      | .obj entries =>
        let r := load_tracks_loop env entries st
        if r.2 then .err r.1
        else
          let st2 := { r.1 with tracks := TRACKS.foldl setdefaultTrack r.1.tracks }
          .ok (recompute_duration st2)
      | _ => .err st

/-- `TimelineModel.load_json` on an input string: `json.loads(s or "{}")`
runs before any mutation, so a string the JSON parser rejects (modelled by
`none`) raises with the previous state untouched; otherwise the parsed
document is processed by `load_json_doc`. -/
def load_json (env : Env) (parsed : Option JValue) (m : TimelineModel) :
    LoadResult :=
  match parsed with
  | none => .err m
  | some doc => load_json_doc env doc m

/-! ### `effects.py` / `transitions.py` — screen shake -/

/-- Truncation toward zero of a real (Python `int()` on a float). -/
noncomputable def pyTruncR (x : ℝ) : ℤ := if 0 ≤ x then ⌊x⌋ else ⌈x⌉

/-- `_smooth_noise(t, seed)`: a fixed blend of two sinusoids with
seed-derived frequencies and phases.  Python's `%` on ints is `Int.emod`
(result has the divisor's sign). -/
noncomputable def smooth_noise (t : ℝ) (seed : ℤ) : ℝ :=
  Real.sin (2 * Real.pi * (2 + ((seed % 7 : ℤ) : ℝ) * (31/100)) * t +
      (seed : ℝ) * (1111/1000)) * (66/100) +
  Real.sin (2 * Real.pi * (3 + ((seed % 13 : ℤ) : ℝ) * (23/100)) * t +
      (seed : ℝ) * (2333/1000)) * (34/100)

/-- `shake_offset(elapsed, duration, amplitude_px, frequency_hz, decay,
seed)` (`effects.py` and `transitions.py` carry the same definition): zero
outside the active window or for non-positive duration/amplitude, otherwise
an exponentially enveloped two-channel noise offset truncated to integer
pixels. -/
noncomputable def shake_offset
    (elapsed duration amplitude_px frequency_hz decay : ℝ) (seed : ℤ) : ℤ × ℤ :=
  if duration ≤ 0 ∨ elapsed < 0 ∨ duration < elapsed ∨ amplitude_px ≤ 0 then
    (0, 0)
  else
    let p := max 0 (min 1 (elapsed / duration))
    let envl := Real.exp (-decay * p)
    let tn := elapsed * max (1/100) frequency_hz
    let nx := smooth_noise tn (seed * 92821 + 17)
    let ny := smooth_noise tn (seed * 31337 + 53)
    (pyTruncR (amplitude_px * envl * nx), pyTruncR (amplitude_px * envl * ny))

/-- The dialog state `_sync_states_for_current_time` installs at time `t`:
the last active DIALOG block's content clamped by `set_dialog`, or the
cleared dialog. -/
def dialog_derived (m : TimelineModel) (t : ℚ) : DialogState :=
  match (active_blocks m "DIALOG" t).getLast? with
  | some k =>
    { speaker := k.data.speaker.getD "", text := k.data.text.getD "",
      cps := max 1 (k.data.cps.getD 24), start := k.t,
      endT := k.t + eff_duration "DIALOG" k }
  | none => { speaker := "", text := "", cps := max 1 24, start := -1, endT := -1 }

/-- The dialog end gate `_sync_states_for_current_time` installs at `t`. -/
def dialog_end_derived (m : TimelineModel) (t : ℚ) : ℚ :=
  match (active_blocks m "DIALOG" t).getLast? with
  | some k => k.t + eff_duration "DIALOG" k
  | none => -1

/-- The modal-menu view `_update_visual_layers` installs at `t` over a
cleared menu, given the label index `idx`. -/
def menu_view_derived (m : TimelineModel) (idx : List (String × ℚ)) (t : ℚ) :
    Option (String × List NormOption × Option ℤ) :=
  match (active_blocks m "MENU" t).getLast? with
  | none => none
  | some mk => some (mk.data.prompt.getD "Choose:",
      normalize_menu_options idx t mk.data.options, some mk.id)

/-! ### Concrete instances used by witnesses and counterexamples -/

/-- A minimal external environment: no files exist, no image decodes, paths
pass through unchanged, the A/B loop is off. -/
def env0 : Env :=
  { fileExists := fun _ => false, resolve := id, normalize := id,
    guessAudio := fun _ => 0, imageLoads := fun _ => false,
    loopEnabled := false, loopA := 0, loopB := none }

/-- Pre-load model state for the C2 counterexample. -/
def kfC2 : Keyframe :=
  { t := 3, track := "BG", data := { value := "bg.png" }, id := 4 }

def mC2 : TimelineModel :=
  { duration := 100, tracks := [("BG", [kfC2])], nextId := 5 }

/-- A document that is valid JSON but whose first keyframe has a
non-numeric `t`: `{"tracks": {"BG": [{"t": "x"}]}}`. -/
def docC2 : JValue :=
  .obj [("tracks", .obj [("BG", .arr [.obj [("t", .str "x")]])])]

/-- The in-memory state at the moment `float("x")` raises inside
`load_json`: duration reset to 60, all tracks cleared, ids reset. -/
def errStC2 : TimelineModel :=
  { duration := 60, tracks := TRACKS.map (fun n => (n, [])), nextId := 1 }

/-- A valid-JSON document whose `duration` field is the non-numeric string
`"abc"`, so `float(doc.get("duration", 60.0))` raises before any mutation. -/
def docC2d : JValue := .obj [("duration", .str "abc")]

/-- Keyframes for the C5 counterexample: ends `100.0000005` and `100.0`. -/
def kfC5a : Keyframe :=
  { t := 994/10, track := "BG", data := { duration := some (6000005/10000000) },
    id := -1 }

def kfC5b : Keyframe :=
  { t := 994/10, track := "BG", data := { duration := some (6/10) }, id := -1 }

/-- The model after adding both C5 keyframes to a fresh timeline. -/
def mC5 : TimelineModel :=
  add_kf env0 (add_kf env0 TimelineModel.init "BG" kfC5a false) "BG" kfC5b false

/-- `mC5` after removing the keyframe with id 1 (the `100.0000005` one). -/
def mC5r : TimelineModel := remove_kf mC5 "BG" 1

/-- A one-keyframe model used to discharge the existence hypothesis of the
C5 removal statement. -/
def kfC5w : Keyframe := { t := 5, track := "BG", data := {}, id := 1 }

def mC5w : TimelineModel :=
  { duration := 60, tracks := [("BG", [kfC5w])], nextId := 2 }

/-- A LOGIC label keyframe named "Start" at time 5.0 and its model. -/
def kfC6 : Keyframe :=
  { t := 5, track := "LOGIC",
    data := { typ := some "label", name := some "Start" }, id := 1 }

def mC6 : TimelineModel :=
  { duration := 60, tracks := [("LOGIC", [kfC6])], nextId := 2 }

/-- A paused widget state with a pending jump resolved from the label
"Start" of `mC6`. -/
def sC6 : WidgetState :=
  let tgt := resolve_target_to_time (rebuild_labels mC6) "Start" WidgetState.init.playhead
  { WidgetState.init with pendingJump := some tgt }

/-- A paused widget state with a pending LOGIC jump to `t = 1`, used to
exercise the post-jump resynchronization of `_tick`. -/
def sC1 : WidgetState := { WidgetState.init with pendingJump := some 1 }

/-- A comparison state for the direct resync: same landing playhead as the
tick from `sC1` on the empty timeline, fresh label index. -/
def s0C1 : WidgetState :=
  { WidgetState.init with
      playhead := (tickAux env0 TimelineModel.init sC1 0).1.playhead,
      labelIndex := rebuild_labels TimelineModel.init }

/-- Concrete keyframe and model for the C8 witness. -/
def kfC8 : Keyframe := { t := 5, track := "BG", data := {}, id := 1 }

def mC8 : TimelineModel := { duration := 60, tracks := [("BG", [kfC8])], nextId := 2 }

/-- Concrete dialog state for the C4 witness: text "Hello" at 10 cps,
window `[2, 5]`. -/
def gC4 : GameCoreState := set_dialog GameCoreState.init "Ann" "Hello" 10 2 5

/-- An environment where every image decodes and paths resolve to
themselves; the loop and audio features are off. -/
def envC7 : Env :=
  { fileExists := fun _ => false, resolve := id, normalize := id,
    guessAudio := fun _ => 0, imageLoads := fun _ => true,
    loopEnabled := false, loopA := 0, loopB := none }

/-- Concrete crossfading core state for the C7 witness: window `[2, 5]`. -/
def gC7 : GameCoreState :=
  set_backgrounds_ex envC7 GameCoreState.init (some "b.png") (some "a.png")
    3 2 "cover" "center" 1

/-- Two overlapping BACKGROUND blocks whose overlap window is `5e-7` long:
`kfC7a` covers `[0, 1]`, `kfC7b` starts at `1 - 5e-7`. -/
def kfC7a : Keyframe :=
  { t := 0, track := "BG", data := { duration := some 1, value := "a.png" }, id := 1 }

def kfC7b : Keyframe :=
  { t := 1 - 1/2000000, track := "BG",
    data := { duration := some 1, value := "b.png" }, id := 2 }

def mC7 : TimelineModel :=
  { duration := 60, tracks := [("BG", [kfC7a, kfC7b])], nextId := 3 }

/-! ### Claim theorems -/

/-- C9: for every track and keyframe the effective duration computed by
`TimelineModel._eff_duration` is at least the tick quantum `TICK_SEC`
(≈ 1/30 s), regardless of the stored duration value (zero, negative or
missing durations included). -/
theorem c9_eff_duration_floor (track : String) (k : Keyframe) :
    TICK_SEC ≤ eff_duration track k := by
  simp only [eff_duration]
  split
  · exact le_max_right _ _
  · split
    · exact le_max_right _ _
    · split
      · exact le_max_right _ _
      · exact le_max_right _ _

/-- C3: `shake_offset` is a pure deterministic function of
`(elapsed, duration, amplitude, frequency, decay, seed)` — two calls with
identical arguments return identical output — and it returns `(0, 0)`
whenever `elapsed < 0`, `elapsed > duration`, `duration ≤ 0`, or
`amplitude ≤ 0`. -/
theorem c3_shake_offset_pure (elapsed duration amplitude_px frequency_hz decay : ℝ)
    (seed : ℤ) :
    shake_offset elapsed duration amplitude_px frequency_hz decay seed =
      shake_offset elapsed duration amplitude_px frequency_hz decay seed ∧
    ((elapsed < 0 ∨ duration < elapsed ∨ duration ≤ 0 ∨ amplitude_px ≤ 0) →
      shake_offset elapsed duration amplitude_px frequency_hz decay seed = (0, 0)) := by
  refine ⟨rfl, fun h => ?_⟩
  unfold shake_offset
  rw [if_pos]
  tauto

/-- Witness for C3 at `elapsed = -1, duration = 5, amplitude = 3,
frequency = 2, decay = 5/2, seed = 0`. -/
theorem c3_shake_offset_pure_witness :
    ((-1 : ℝ) < 0 ∨ (5 : ℝ) < -1 ∨ (5 : ℝ) ≤ 0 ∨ (3 : ℝ) ≤ 0) ∧
    shake_offset (-1) 5 3 2 (5/2) 0 = (0, 0) :=
  ⟨Or.inl (by norm_num),
    (c3_shake_offset_pure (-1) 5 3 2 (5/2) 0).2 (Or.inl (by norm_num))⟩

/-- C10: `GameCore.set_dialog` clamps the chars-per-second rate to at least
1.0 on ingestion — the stored rate is exactly `max 1 cps` — and the
typewriter reveal count of `render_surface` is computed from that clamped
stored rate. -/
theorem c10_set_dialog_cps_clamp (g : GameCoreState) (speaker text : String)
    (cps t_start t_end t : ℚ) :
    (set_dialog g speaker text cps t_start t_end).dialog.cps = max 1 cps ∧
    typed_count (set_dialog g speaker text cps t_start t_end) t =
      pySliceLen text.length (min (text.length : ℤ)
        (pyTrunc (max 0 (t - t_start) * max 1 cps))) :=
  ⟨rfl, rfl⟩

/-- C8: for `t0 ≤ t1`, `TimelineModel.keyframes_at` yields exactly the
`(track, keyframe)` pairs whose start time lies in the open-closed interval
`(t0, t1]` — start exactly at `t0` excluded, start exactly at `t1`
included, nothing outside. -/
theorem c8_keyframes_at_interval (m : TimelineModel) (t0 t1 : ℚ) (h : t0 ≤ t1)
    (tr : String) (k : Keyframe) :
    (tr, k) ∈ keyframes_at m t0 t1 ↔
      ∃ arr, (tr, arr) ∈ m.tracks ∧ k ∈ arr ∧ t0 < k.t ∧ k.t ≤ t1 := by
  unfold keyframes_at
  simp only [if_neg (not_lt.mpr h), List.mem_flatMap, List.mem_map,
    List.mem_filter, decide_eq_true_eq]
  constructor
  · rintro ⟨⟨trN, arr⟩, hmem, kk, ⟨hk, hc1, hc2⟩, heq⟩
    injection heq with e1 e2
    subst e1; subst e2
    exact ⟨arr, hmem, hk, hc1, hc2⟩
  · rintro ⟨arr, hmem, hk, hc1, hc2⟩
    exact ⟨(tr, arr), hmem, k, ⟨hk, hc1, hc2⟩, rfl⟩



/-- Witness for C8 at the model `mC8` and the interval `(0, 10]`. -/
theorem c8_keyframes_at_interval_witness :
    (0 : ℚ) ≤ 10 ∧
    (("BG", kfC8) ∈ keyframes_at mC8 0 10 ↔
      ∃ arr, ("BG", arr) ∈ mC8.tracks ∧ kfC8 ∈ arr ∧ (0 : ℚ) < kfC8.t ∧ kfC8.t ≤ 10) :=
  ⟨by norm_num, c8_keyframes_at_interval mC8 0 10 (by norm_num) "BG" kfC8⟩

/-- C4: for an active dialog block and any reveal rate `cps > 0`, the number
of visible characters rendered at playhead `t` equals
`⌊(t - start) * cps⌋` clamped to the text length, is non-decreasing in `t`,
and never exceeds the text length. -/
theorem c4_typewriter (g : GameCoreState) (t t2 : ℚ)
    (hcps : 0 < g.dialog.cps) (hact : dialog_active g t)
    (hact2 : dialog_active g t2) (hle : t ≤ t2) :
    typed_count g t =
      min g.dialog.text.length (⌊(t - g.dialog.start) * g.dialog.cps⌋).toNat ∧
    typed_count g t ≤ typed_count g t2 ∧
    typed_count g t ≤ g.dialog.text.length := by
  obtain ⟨h0, hst, hend, hne⟩ := hact
  obtain ⟨h02, hst2, hend2, hne2⟩ := hact2
  have key : ∀ u : ℚ, g.dialog.start ≤ u →
      typed_count g u =
        min g.dialog.text.length (⌊(u - g.dialog.start) * g.dialog.cps⌋).toNat := by
    intro u hu
    have hnnu : 0 ≤ (u - g.dialog.start) * g.dialog.cps :=
      mul_nonneg (by linarith) hcps.le
    have hF : 0 ≤ ⌊(u - g.dialog.start) * g.dialog.cps⌋ := Int.floor_nonneg.mpr hnnu
    simp only [typed_count, pyTrunc, pySliceLen]
    rw [max_eq_right (by linarith : (0 : ℚ) ≤ u - g.dialog.start), if_pos hnnu]
    have hfl : Rat.floor ((u - g.dialog.start) * g.dialog.cps) =
        ⌊(u - g.dialog.start) * g.dialog.cps⌋ := rfl
    rw [hfl, if_pos (le_min (Int.natCast_nonneg _) hF)]
    omega
  have hFle : ⌊(t - g.dialog.start) * g.dialog.cps⌋ ≤
      ⌊(t2 - g.dialog.start) * g.dialog.cps⌋ :=
    Int.floor_le_floor (mul_le_mul_of_nonneg_right (by linarith) hcps.le)
  refine ⟨key t hst, ?_, ?_⟩
  · rw [key t hst, key t2 hst2]
    omega
  · rw [key t hst]
    omega



/-- Witness for C4 at `t = 5/2` and `t2 = 13/5`. -/
theorem c4_typewriter_witness :
    (0 : ℚ) < gC4.dialog.cps ∧ dialog_active gC4 (5/2) ∧
      dialog_active gC4 (13/5) ∧ (5/2 : ℚ) ≤ 13/5 ∧
    (typed_count gC4 (5/2) =
        min gC4.dialog.text.length
          (⌊((5/2 : ℚ) - gC4.dialog.start) * gC4.dialog.cps⌋).toNat ∧
      typed_count gC4 (5/2) ≤ typed_count gC4 (13/5) ∧
      typed_count gC4 (5/2) ≤ gC4.dialog.text.length) := by
  have h1 : (0 : ℚ) < gC4.dialog.cps := by
    norm_num [gC4, set_dialog, GameCoreState.init]
  have h2 : dialog_active gC4 (5/2) := by
    simp only [dialog_active, gC4, set_dialog, GameCoreState.init]
    norm_num
    exact Or.inl (by decide)
  have h3 : dialog_active gC4 (13/5) := by
    simp only [dialog_active, gC4, set_dialog, GameCoreState.init]
    norm_num
    exact Or.inl (by decide)
  have h4 : (5/2 : ℚ) ≤ 13/5 := by norm_num
  exact ⟨h1, h2, h3, h4, c4_typewriter gC4 (5/2) (13/5) h1 h2 h3 h4⟩

/-- C7 (amended): for a background crossfade whose window
`[a, b] = [xstart, xstart + xfade]` is at least `1e-6` long, the blend
weights are `(1, 0)` at `a`, `(0, 1)` at `b`, and exactly `(1/2, 1/2)` at
the midpoint.  (For windows shorter than `1e-6` the progress is divided by
`1e-6` instead of the window length; see the counterexample.) -/
theorem c7_crossfade_window (g : GameCoreState) (ci pr : String)
    (himg : g.bg.img = some ci) (hprev : g.bg.prev = some pr)
    (hxf : 1/1000000 ≤ g.bg.xfade) :
    bg_blend_alphas g g.bg.xstart = some (1, 0) ∧
    bg_blend_alphas g (g.bg.xstart + g.bg.xfade) = some (0, 1) ∧
    bg_blend_alphas g (g.bg.xstart + g.bg.xfade / 2) = some (1/2, 1/2) := by
  have hpos : 0 < g.bg.xfade := lt_of_lt_of_le (by norm_num) hxf
  have hne : g.bg.xfade ≠ 0 := ne_of_gt hpos
  have hmax : max (1/1000000 : ℚ) g.bg.xfade = g.bg.xfade := max_eq_right hxf
  unfold bg_blend_alphas
  simp only [himg, hprev]
  refine ⟨?_, ?_, ?_⟩
  · rw [if_pos ⟨hpos, le_refl _, by linarith⟩]
    have h1 : g.bg.xstart - g.bg.xstart = 0 := sub_self _
    simp only [hmax, h1, zero_div]
    norm_num
  · rw [if_pos ⟨hpos, by linarith, le_refl _⟩]
    have h1 : g.bg.xstart + g.bg.xfade - g.bg.xstart = g.bg.xfade := by ring
    have h2 : g.bg.xfade / g.bg.xfade = 1 := div_self hne
    simp only [hmax, h1, h2]
    norm_num
  · rw [if_pos ⟨hpos, by linarith, by linarith⟩]
    have h1 : g.bg.xstart + g.bg.xfade / 2 - g.bg.xstart = g.bg.xfade / 2 := by ring
    have h2 : g.bg.xfade / 2 / g.bg.xfade = 1 / 2 := by field_simp; ring
    simp only [hmax, h1, h2]
    norm_num



/-- Witness for C7 (amended) on the window `[2, 5]`. -/
theorem c7_crossfade_window_witness :
    gC7.bg.img = some "b.png" ∧ gC7.bg.prev = some "a.png" ∧
      (1/1000000 : ℚ) ≤ gC7.bg.xfade ∧
    (bg_blend_alphas gC7 gC7.bg.xstart = some (1, 0) ∧
      bg_blend_alphas gC7 (gC7.bg.xstart + gC7.bg.xfade) = some (0, 1) ∧
      bg_blend_alphas gC7 (gC7.bg.xstart + gC7.bg.xfade / 2) = some (1/2, 1/2)) := by
  have h1 : gC7.bg.img = some "b.png" := by
    simp [gC7, set_backgrounds_ex, load_image, envC7]
  have h2 : gC7.bg.prev = some "a.png" := by
    simp [gC7, set_backgrounds_ex, load_image, envC7]
  have h3 : (1/1000000 : ℚ) ≤ gC7.bg.xfade := by
    simp only [gC7, set_backgrounds_ex]
    norm_num
  exact ⟨h1, h2, h3, c7_crossfade_window gC7 "b.png" "a.png" h1 h2 h3⟩



/-- C7 counterexample: for the two overlapping BACKGROUND blocks of `mC7`
the crossfade window is `[a, b] = [1 - 5e-7, 1]`, yet at time `b` the
rendered blend weights are `(1/2, 1/2)` — not previous `0.0` / current
`1.0` as the claim states — because the source divides the progress by
`max(1e-6, xfade)` and the window is shorter than `1e-6`. -/
theorem c7_counterexample :
    bg_blend_alphas (bg_section envC7 mC7 1 GameCoreState.init) 1 = some (1/2, 1/2) ∧
    bg_blend_alphas (bg_section envC7 mC7 1 GameCoreState.init) 1 ≠ some (0, 1) := by
  have h : bg_blend_alphas (bg_section envC7 mC7 1 GameCoreState.init) 1 =
      some (1/2, 1/2) := by
    norm_num [bg_section, active_blocks, getTrack, lookupStr, mC7, kfC7a, kfC7b,
      envC7, eff_duration, defaultTrackDuration, TICK_SEC, List.filter, sortByTime,
      insertByTime, List.getLast?, List.dropLast, bg_params, resolve_asset_value,
      set_backgrounds_ex, load_image, bg_blend_alphas]
    simp
  refine ⟨h, ?_⟩
  rw [h]
  intro hc
  injection hc with hp
  injection hp with hp1 hp2
  norm_num at hp1

/-! ### Structural lemmas about the tick pipeline -/

theorem apply_dialog_block_keeps (m : TimelineModel) (k : Keyframe)
    (s : WidgetState) :
    (apply_dialog_block m k s).playhead = s.playhead ∧
    (apply_dialog_block m k s).labelIndex = s.labelIndex ∧
    (apply_dialog_block m k s).sfxLog = s.sfxLog ∧
    (apply_dialog_block m k s).game.bg = s.game.bg ∧
    (apply_dialog_block m k s).game.spr = s.game.spr ∧
    (apply_dialog_block m k s).menuActive = s.menuActive ∧
    (apply_dialog_block m k s).menuOptions = s.menuOptions ∧
    (apply_dialog_block m k s).menuKfId = s.menuKfId ∧
    (apply_dialog_block m k s).music = s.music :=
  ⟨rfl, rfl, rfl, rfl, rfl, rfl, rfl, rfl, rfl⟩

theorem start_music_block_keeps (env : Env) (m : TimelineModel) (k : Keyframe)
    (off : Option ℚ) (s : WidgetState) :
    (start_music_block env m k off s).playhead = s.playhead ∧
    (start_music_block env m k off s).labelIndex = s.labelIndex ∧
    (start_music_block env m k off s).sfxLog = s.sfxLog ∧
    (start_music_block env m k off s).game = s.game ∧
    (start_music_block env m k off s).dialogEnd = s.dialogEnd ∧
    (start_music_block env m k off s).menuActive = s.menuActive ∧
    (start_music_block env m k off s).menuOptions = s.menuOptions ∧
    (start_music_block env m k off s).menuKfId = s.menuKfId := by
  unfold start_music_block
  refine ⟨?_, ?_, ?_, ?_, ?_, ?_, ?_, ?_⟩ <;> ((try simp only []); repeat' split) <;> rfl

theorem exec_logic_action_keeps (s : WidgetState) (d : KfData) :
    (exec_logic_action s d).playhead = s.playhead ∧
    (exec_logic_action s d).labelIndex = s.labelIndex ∧
    (exec_logic_action s d).sfxLog = s.sfxLog ∧
    (exec_logic_action s d).game = s.game ∧
    (exec_logic_action s d).dialogEnd = s.dialogEnd ∧
    (exec_logic_action s d).menuActive = s.menuActive ∧
    (exec_logic_action s d).menuOptions = s.menuOptions ∧
    (exec_logic_action s d).menuKfId = s.menuKfId ∧
    (exec_logic_action s d).music = s.music := by
  unfold exec_logic_action
  refine ⟨?_, ?_, ?_, ?_, ?_, ?_, ?_, ?_, ?_⟩ <;> ((try simp only []); repeat' split) <;> rfl

theorem apply_keyframe_enter_keeps (env : Env) (m : TimelineModel)
    (s : WidgetState) (track : String) (k : Keyframe) :
    (apply_keyframe_enter env m s track k).playhead = s.playhead ∧
    (apply_keyframe_enter env m s track k).labelIndex = s.labelIndex := by
  unfold apply_keyframe_enter apply_dialog_block start_music_block exec_logic_action
  refine ⟨?_, ?_⟩ <;> ((try simp only []); repeat' split) <;> rfl

theorem enters_fold_keeps (env : Env) (m : TimelineModel)
    (l : List (String × Keyframe)) (s : WidgetState) :
    ((l.foldl (fun st p => apply_keyframe_enter env m st p.1 p.2) s).playhead =
        s.playhead) ∧
    (l.foldl (fun st p => apply_keyframe_enter env m st p.1 p.2) s).labelIndex =
      s.labelIndex := by
  induction l generalizing s with
  | nil => exact ⟨rfl, rfl⟩
  | cons p rest ih =>
    simp only [List.foldl_cons]
    obtain ⟨ih1, ih2⟩ := ih (apply_keyframe_enter env m s p.1 p.2)
    obtain ⟨h1, h2⟩ := apply_keyframe_enter_keeps env m s p.1 p.2
    exact ⟨ih1.trans h1, ih2.trans h2⟩

theorem enters_fold_labelIndex (env : Env) (m : TimelineModel)
    (l : List (String × Keyframe)) (s : WidgetState) :
    (l.foldl (fun st p => apply_keyframe_enter env m st p.1 p.2) s).labelIndex =
      s.labelIndex :=
  (enters_fold_keeps env m l s).2

theorem tick_playing_phase_labelIndex (env : Env) (m : TimelineModel)
    (s : WidgetState) (dt : ℚ) :
    (tick_playing_phase env m s dt).1.labelIndex = s.labelIndex := by
  unfold tick_playing_phase
  split
  · ((try simp only []); (repeat' split)) <;> simp [enters_fold_labelIndex]
  · rfl

theorem tick_jump_phase_keeps (m : TimelineModel) (sj : WidgetState × Bool) :
    (tick_jump_phase m sj).1.labelIndex = sj.1.labelIndex := by
  unfold tick_jump_phase
  split <;> rfl

theorem sync_keeps (env : Env) (m : TimelineModel) (s : WidgetState) :
    (sync_states_for_current_time env m s).playhead = s.playhead ∧
    (sync_states_for_current_time env m s).labelIndex = s.labelIndex ∧
    (sync_states_for_current_time env m s).sfxLog = s.sfxLog ∧
    (sync_states_for_current_time env m s).menuActive = false ∧
    (sync_states_for_current_time env m s).menuOptions = [] ∧
    (sync_states_for_current_time env m s).menuKfId = none ∧
    (sync_states_for_current_time env m s).game.bg = s.game.bg ∧
    (sync_states_for_current_time env m s).game.spr = s.game.spr ∧
    (sync_states_for_current_time env m s).playing = s.playing ∧
    (sync_states_for_current_time env m s).muteMusic = s.muteMusic := by
  unfold sync_states_for_current_time apply_dialog_block start_music_block set_dialog
  refine ⟨?_, ?_, ?_, ?_, ?_, ?_, ?_, ?_, ?_, ?_⟩ <;>
    ((try simp only []); repeat' split) <;> rfl

theorem sync_dialog_eq (env : Env) (m : TimelineModel) (s : WidgetState) :
    (sync_states_for_current_time env m s).game.dialog = dialog_derived m s.playhead ∧
    (sync_states_for_current_time env m s).dialogEnd = dialog_end_derived m s.playhead := by
  unfold sync_states_for_current_time apply_dialog_block start_music_block set_dialog
    dialog_derived dialog_end_derived
  refine ⟨?_, ?_⟩ <;> ((try simp only []); repeat' split) <;> rfl

theorem bg_section_keeps (env : Env) (m : TimelineModel) (t : ℚ) (g : GameCoreState) :
    (bg_section env m t g).dialog = g.dialog ∧ (bg_section env m t g).spr = g.spr := by
  unfold bg_section set_backgrounds_ex
  refine ⟨?_, ?_⟩ <;> ((try simp only []); repeat' split) <;> rfl

theorem bg_section_bg_const (env : Env) (m : TimelineModel) (t : ℚ)
    (g g2 : GameCoreState) :
    (bg_section env m t g).bg = (bg_section env m t g2).bg := by
  unfold bg_section set_backgrounds_ex
  ((try simp only []); repeat' split) <;> rfl

theorem spr_section_keeps (env : Env) (m : TimelineModel) (t : ℚ) (g : GameCoreState) :
    (spr_section env m t g).dialog = g.dialog ∧ (spr_section env m t g).bg = g.bg := by
  unfold spr_section set_sprite_layers
  refine ⟨?_, ?_⟩ <;> ((try simp only []); repeat' split) <;> rfl

theorem spr_section_view_const (env : Env) (m : TimelineModel) (t : ℚ)
    (g g2 : GameCoreState) :
    spriteView (spr_section env m t g).spr = spriteView (spr_section env m t g2).spr := by
  unfold spr_section
  simp only []
  cases h1 : (active_blocks m "SPRITE" t).getLast? with
  | none => rfl
  | some cur =>
    cases h2 : (active_blocks m "SPRITE" t).dropLast.getLast? with
    | none => rfl
    | some prev =>
      dsimp only
      split <;> rfl

theorem fx_section_keeps (m : TimelineModel) (t : ℚ) (g : GameCoreState) :
    (fx_section m t g).dialog = g.dialog ∧ (fx_section m t g).bg = g.bg ∧
    (fx_section m t g).spr = g.spr := by
  unfold fx_section set_fx_overlay start_shake
  refine ⟨?_, ?_, ?_⟩ <;> ((try simp only []); repeat' split) <;> rfl

theorem menu_section_keeps (m : TimelineModel) (t : ℚ) (s : WidgetState) :
    (menu_section m t s).playhead = s.playhead ∧
    (menu_section m t s).labelIndex = s.labelIndex ∧
    (menu_section m t s).sfxLog = s.sfxLog ∧
    (menu_section m t s).game = s.game ∧
    (menu_section m t s).dialogEnd = s.dialogEnd := by
  unfold menu_section
  refine ⟨?_, ?_, ?_, ?_, ?_⟩ <;> ((try simp only []); repeat' split) <;> rfl

theorem update_keeps (env : Env) (m : TimelineModel) (s : WidgetState) :
    (update_visual_layers env m s).playhead = s.playhead ∧
    (update_visual_layers env m s).labelIndex = s.labelIndex ∧
    (update_visual_layers env m s).sfxLog = s.sfxLog ∧
    (update_visual_layers env m s).dialogEnd = s.dialogEnd ∧
    (update_visual_layers env m s).game.dialog = s.game.dialog := by
  unfold update_visual_layers
  obtain ⟨m1, m2, m3, m4, m5⟩ := menu_section_keeps m s.playhead { s with game := fx_section m s.playhead (spr_section env m s.playhead (bg_section env m s.playhead s.game)) }
  refine ⟨m1, m2, m3, m5, ?_⟩
  rw [m4]
  show (fx_section m s.playhead (spr_section env m s.playhead (bg_section env m s.playhead s.game))).dialog = s.game.dialog
  rw [(fx_section_keeps m s.playhead _).1, (spr_section_keeps env m s.playhead _).1,
    (bg_section_keeps env m s.playhead _).1]

theorem update_bg (env : Env) (m : TimelineModel) (s : WidgetState) :
    (update_visual_layers env m s).game.bg =
      (bg_section env m s.playhead GameCoreState.init).bg := by
  unfold update_visual_layers
  rw [(menu_section_keeps m s.playhead _).2.2.2.1]
  show (fx_section m s.playhead (spr_section env m s.playhead (bg_section env m s.playhead s.game))).bg = _
  rw [(fx_section_keeps m s.playhead _).2.1, (spr_section_keeps env m s.playhead _).2,
    bg_section_bg_const env m s.playhead s.game GameCoreState.init]

theorem update_sprView (env : Env) (m : TimelineModel) (s : WidgetState) :
    spriteView (update_visual_layers env m s).game.spr =
      spriteView (spr_section env m s.playhead GameCoreState.init).spr := by
  unfold update_visual_layers
  rw [(menu_section_keeps m s.playhead _).2.2.2.1]
  show spriteView (fx_section m s.playhead (spr_section env m s.playhead (bg_section env m s.playhead s.game))).spr = _
  rw [(fx_section_keeps m s.playhead _).2.2]
  exact spr_section_view_const env m s.playhead _ GameCoreState.init

theorem update_menuView (env : Env) (m : TimelineModel) (s : WidgetState)
    (hma : s.menuActive = false) :
    menuView (update_visual_layers env m s) =
      menu_view_derived m s.labelIndex s.playhead := by
  unfold update_visual_layers menu_section menu_view_derived menuView
  simp only []
  cases h : (active_blocks m "MENU" s.playhead).getLast? with
  | none => simp [h, hma]
  | some mk => simp [h]

theorem resync_keeps (env : Env) (m : TimelineModel) (s : WidgetState) :
    (resync_at env m s).playhead = s.playhead ∧
    (resync_at env m s).sfxLog = s.sfxLog := by
  unfold resync_at
  obtain ⟨u1, _, u3, _, _⟩ := update_keeps env m (sync_states_for_current_time env m s)
  obtain ⟨s1, _, s3, _⟩ := sync_keeps env m s
  exact ⟨u1.trans s1, u3.trans s3⟩

theorem resync_view_canonical (env : Env) (m : TimelineModel) (s : WidgetState) :
    derived_view (resync_at env m s) =
      (dialog_derived m s.playhead, dialog_end_derived m s.playhead,
       (bg_section env m s.playhead GameCoreState.init).bg,
       spriteView (spr_section env m s.playhead GameCoreState.init).spr,
       menu_view_derived m s.labelIndex s.playhead) := by
  obtain ⟨k1, k2, _, k4, _⟩ := sync_keeps env m s
  obtain ⟨d1, d2⟩ := sync_dialog_eq env m s
  have hdlg := ((update_keeps env m (sync_states_for_current_time env m s)).2.2.2.2).trans d1
  have hde := ((update_keeps env m (sync_states_for_current_time env m s)).2.2.2.1).trans d2
  have hbg := (update_bg env m (sync_states_for_current_time env m s)).trans
    (congrArg (fun t => (bg_section env m t GameCoreState.init).bg) k1)
  have hspr := (update_sprView env m (sync_states_for_current_time env m s)).trans
    (congrArg (fun t => spriteView (spr_section env m t GameCoreState.init).spr) k1)
  have hmenu := (update_menuView env m (sync_states_for_current_time env m s) k4).trans
    (by rw [k1, k2])
  unfold derived_view resync_at
  rw [hdlg, hde, hbg, hspr]
  unfold resync_at at hmenu
  rw [hmenu]

theorem resync_view_eq (env : Env) (m : TimelineModel) (s1 s2 : WidgetState)
    (hph : s1.playhead = s2.playhead) (hlbl : s1.labelIndex = s2.labelIndex) :
    derived_view (resync_at env m s1) = derived_view (resync_at env m s2) := by
  rw [resync_view_canonical, resync_view_canonical, hph, hlbl]

theorem tickAux_jumped (env : Env) (m : TimelineModel) (s : WidgetState)
    (dtRaw : ℚ) (hj : (tickAux env m s dtRaw).2 = true) :
    (tickAux env m s dtRaw).1 =
      resync_at env m (tick_jump_phase m (tick_playing_phase env m
        { s with labelIndex := rebuild_labels m } (max 0 (min (1/20) dtRaw)))).1 := by
  unfold tickAux at hj ⊢
  simp only [] at hj ⊢
  rw [if_pos hj]
  rfl

theorem tick_mid_labelIndex (env : Env) (m : TimelineModel) (s : WidgetState)
    (dtRaw : ℚ) :
    (tick_jump_phase m (tick_playing_phase env m
      { s with labelIndex := rebuild_labels m }
      (max 0 (min (1/20) dtRaw)))).1.labelIndex = rebuild_labels m := by
  rw [tick_jump_phase_keeps, tick_playing_phase_labelIndex]

/-- C6: jump/menu target resolution: a known label name resolves to that
label's time; otherwise the numeric parse is attempted; a failed parse
falls back to the caller-supplied default (so a malformed target is a
no-op jump to the current playhead); the applied jump is clamped into
`[0, duration]`; resolution is a total function and never raises; and a
jump targeting the label "Start" recorded at time 5.0 lands the playhead
at exactly 5.0. -/
theorem c6_resolve_jump_target :
    (∀ (idx : List (String × ℚ)) (target : String) (d v : ℚ),
        lookupStr idx target = some v → resolve_target_to_time idx target d = v) ∧
    (∀ (idx : List (String × ℚ)) (target : String) (d : ℚ),
        lookupStr idx target = none →
        resolve_target_to_time idx target d = (parsePyFloat target).getD d) ∧
    (∀ (idx : List (String × ℚ)) (target : String) (d : ℚ),
        lookupStr idx target = none → parsePyFloat target = none →
        resolve_target_to_time idx target d = d) ∧
    (∀ (s : WidgetState) (dd : KfData), pyLower (dd.typ.getD "") = "jump" →
        (exec_logic_action s dd).pendingJump =
          some (resolve_target_to_time s.labelIndex
            (dd.target.getD (dd.toStr.getD "")) s.playhead)) ∧
    (∀ (env : Env) (m : TimelineModel) (s : WidgetState) (dtRaw j : ℚ),
        s.playing = false → s.pendingJump = some j →
        (tick env m s dtRaw).playhead = max 0 (min m.duration j)) ∧
    (∀ (env : Env) (m : TimelineModel) (s : WidgetState) (dtRaw : ℚ),
        s.playing = false →
        lookupStr (rebuild_labels m) "Start" = some 5 →
        s.pendingJump = some (resolve_target_to_time (rebuild_labels m) "Start"
          s.playhead) →
        5 ≤ m.duration →
        (tick env m s dtRaw).playhead = 5) := by
  have p1 : ∀ (idx : List (String × ℚ)) (target : String) (d v : ℚ),
      lookupStr idx target = some v → resolve_target_to_time idx target d = v := by
    intro idx target d v h
    simp [resolve_target_to_time, h]
  have p5 : ∀ (env : Env) (m : TimelineModel) (s : WidgetState) (dtRaw j : ℚ),
      s.playing = false → s.pendingJump = some j →
      (tick env m s dtRaw).playhead = max 0 (min m.duration j) := by
    intro env m s dtRaw j hplay hpend
    unfold tick tickAux
    simp only []
    have h1 : tick_playing_phase env m { s with labelIndex := rebuild_labels m }
        (max 0 (min (1/20) dtRaw)) = ({ s with labelIndex := rebuild_labels m }, false) := by
      simp [tick_playing_phase, hplay]
    rw [h1]
    have h2 : tick_jump_phase m ({ s with labelIndex := rebuild_labels m }, false) =
        ({ s with labelIndex := rebuild_labels m, playhead := max 0 (min m.duration j), pendingJump := none }, true) := by
      simp [tick_jump_phase, hpend]
    rw [h2]
    split
    · rw [(update_keeps env m _).1, (sync_keeps env m _).1]
    · exact absurd rfl (by assumption)
  refine ⟨p1, ?_, ?_, ?_, p5, ?_⟩
  · intro idx target d h
    simp [resolve_target_to_time, h]
  · intro idx target d h1 h2
    simp [resolve_target_to_time, h1, h2]
  · intro s dd hty
    simp [exec_logic_action, hty]
  · intro env m s dtRaw hplay hlk hpend hdur
    have hres : resolve_target_to_time (rebuild_labels m) "Start" s.playhead = 5 :=
      p1 (rebuild_labels m) "Start" s.playhead 5 hlk
    have := p5 env m s dtRaw 5 hplay (hpend.trans (by rw [hres]))
    rw [this, min_eq_right hdur]
    norm_num

/-- Witness for C6: the label "Start" of `mC6` sits at time 5.0 and the
paused state `sC6` carries the resolved pending jump; the tick lands the
playhead at exactly 5.0. -/
theorem c6_resolve_jump_target_witness : (tick env0 mC6 sC6 0).playhead = 5 :=
  c6_resolve_jump_target.2.2.2.2.2 env0 mC6 sC6 0 rfl rfl rfl
    (by norm_num [mC6])

/-- C1: after a non-linear playhead change within a tick (a pending LOGIC
jump or an A/B loop-back), `_tick` fully rebuilds derived state at the new
time before compositing, so the dialog/background/sprite/menu state it
reaches equals the state produced by a direct resync at the landing time
`t` — regardless of how the pre-jump state was reached by forward playback.
Moreover the resync fires no SFX, clears and re-derives the menu and the
dialog from the blocks active at `t`, and restarts music at offset
`t - block.start`. -/
theorem c1_resync_idempotent (env : Env) (m : TimelineModel)
    (s s0 : WidgetState) (dtRaw : ℚ)
    (hj : (tickAux env m s dtRaw).2 = true)
    (hph : s0.playhead = (tickAux env m s dtRaw).1.playhead)
    (hlbl : s0.labelIndex = rebuild_labels m) :
    derived_view (tickAux env m s dtRaw).1 = derived_view (resync_at env m s0) ∧
    (resync_at env m s0).sfxLog = s0.sfxLog ∧
    (sync_states_for_current_time env m s0).menuActive = false ∧
    (sync_states_for_current_time env m s0).menuOptions = [] ∧
    (sync_states_for_current_time env m s0).game.dialog =
      dialog_derived m s0.playhead ∧
    (∀ k : Keyframe, (active_blocks m "MUSIC" s0.playhead).getLast? = some k →
      s0.playing = true → s0.muteMusic = false →
      env.fileExists (resolve_asset_value env k.data.value) = true →
      k.t ≤ s0.playhead →
      (sync_states_for_current_time env m s0).music =
        some (resolve_asset_value env k.data.value, k.data.vol.getD 1,
          s0.playhead - k.t)) := by
  refine ⟨?_, (resync_keeps env m s0).2, (sync_keeps env m s0).2.2.2.1,
    (sync_keeps env m s0).2.2.2.2.1, (sync_dialog_eq env m s0).1, ?_⟩
  · rw [tickAux_jumped env m s dtRaw hj]
    apply resync_view_eq
    · have h1 := hph
      rw [tickAux_jumped env m s dtRaw hj, (resync_keeps env m _).1] at h1
      exact h1.symm
    · exact (tick_mid_labelIndex env m s dtRaw).trans hlbl.symm
  · intro k hk hplay hmute hfile hkt
    unfold sync_states_for_current_time apply_dialog_block set_dialog
      start_music_block
    simp only []
    cases hd : (active_blocks m "DIALOG" s0.playhead).getLast? <;>
      simp [hd, hk, hplay, hmute, hfile, max_eq_right (sub_nonneg.mpr hkt)]

/-- Witness for C1: a tick on the empty timeline from the paused state
`sC1` (pending jump to 1 s) against a direct resync at the same landing
playhead. -/
theorem c1_resync_idempotent_witness :
    derived_view (tickAux env0 TimelineModel.init sC1 0).1 =
      derived_view (resync_at env0 TimelineModel.init s0C1) ∧
    (resync_at env0 TimelineModel.init s0C1).sfxLog = s0C1.sfxLog ∧
    (sync_states_for_current_time env0 TimelineModel.init s0C1).menuActive = false ∧
    (sync_states_for_current_time env0 TimelineModel.init s0C1).menuOptions = [] ∧
    (sync_states_for_current_time env0 TimelineModel.init s0C1).game.dialog =
      dialog_derived TimelineModel.init s0C1.playhead ∧
    (∀ k : Keyframe,
      (active_blocks TimelineModel.init "MUSIC" s0C1.playhead).getLast? = some k →
      s0C1.playing = true → s0C1.muteMusic = false →
      env0.fileExists (resolve_asset_value env0 k.data.value) = true →
      k.t ≤ s0C1.playhead →
      (sync_states_for_current_time env0 TimelineModel.init s0C1).music =
        some (resolve_asset_value env0 k.data.value, k.data.vol.getD 1,
          s0C1.playhead - k.t)) :=
  c1_resync_idempotent env0 TimelineModel.init sC1 s0C1 0 rfl rfl rfl

/-- `_recompute_duration` never changes the tracks (`_set_duration` only
touches `_duration`). -/
theorem recompute_duration_tracks (x : TimelineModel) :
    (recompute_duration x).tracks = x.tracks := by
  unfold recompute_duration set_duration
  split <;> rfl

/-- `longest_end` reads only the tracks, so it is unchanged by
`_recompute_duration`. -/
theorem longest_end_recompute (x : TimelineModel) :
    longest_end (recompute_duration x) = longest_end x := by
  unfold longest_end
  rw [recompute_duration_tracks]

/-- After `_recompute_duration` the stored duration lies within the `1e-6`
deadband of the recomputed value `max(longest end, 60)`. -/
theorem recompute_duration_close (x : TimelineModel) :
    |(recompute_duration x).duration - max (longest_end x) 60| ≤ 1/1000000 := by
  unfold recompute_duration set_duration
  split
  · norm_num
  · rename_i h
    rw [abs_sub_comm]
    exact not_lt.mp h

/-- C5 (amended): `add_kf` never decreases the stored total duration; after
`remove_kf` drops an existing keyframe the stored duration agrees with the
recomputed value `max(max end time, 60)` only up to the `1e-6` deadband of
`TimelineModel._set_duration`, which skips the store when the recomputed
value is within `1e-6` of the current duration (exact equality fails, see
the counterexample). -/
theorem c5_duration_recompute :
    (∀ (env : Env) (m : TimelineModel) (track : String) (kf : Keyframe)
        (snap : Bool), m.duration ≤ (add_kf env m track kf snap).duration) ∧
    (∀ (m : TimelineModel) (track : String) (kfId : ℤ),
        (∃ k ∈ getTrack m track, k.id = kfId) →
        |(remove_kf m track kfId).duration -
            max (longest_end (remove_kf m track kfId)) 60| ≤ 1/1000000) := by
  constructor
  · intro env m track kf snap
    unfold add_kf set_duration
    simp only []
    repeat' split
    all_goals first
      | exact le_max_left _ _
      | exact le_refl _
  · intro m track kfId h
    obtain ⟨k, hk, hkid⟩ := h
    have hne : ¬(((getTrack m track).filter
        (fun k => decide (k.id ≠ kfId))).length = (getTrack m track).length) := by
      rw [List.filter_length_eq_length]
      intro hall
      exact absurd (hall k hk) (by simp [hkid])
    unfold remove_kf
    simp only []
    rw [if_neg hne, longest_end_recompute]
    exact recompute_duration_close _

/-- Witness for C5: on a fresh timeline adding `kfC5a` does not decrease
the 60 s duration, and removing the only keyframe of `mC5w` leaves a stored
duration within `1e-6` of the recomputed value. -/
theorem c5_duration_recompute_witness :
    TimelineModel.init.duration ≤
        (add_kf env0 TimelineModel.init "BG" kfC5a false).duration ∧
    |(remove_kf mC5w "BG" 1).duration -
        max (longest_end (remove_kf mC5w "BG" 1)) 60| ≤ 1/1000000 :=
  ⟨c5_duration_recompute.1 env0 TimelineModel.init "BG" kfC5a false,
   c5_duration_recompute.2 mC5w "BG" 1
     ⟨kfC5w, List.mem_singleton_self kfC5w, rfl⟩⟩

set_option maxHeartbeats 4000000 in
/-- Counterexample for C5's exact-recomputation reading: removing the
`100.0000005`-end keyframe from `mC5` recomputes the maximum end as `100`,
but the stored duration stays `100.0000005` because the difference `5e-7`
falls inside the `1e-6` deadband of `_set_duration`. -/
theorem c5_counterexample :
    mC5r.duration = 1000000005/10000000 ∧
    max (longest_end mC5r) 60 = 100 ∧
    mC5r.duration ≠ max (longest_end mC5r) 60 := by
  have h1 : mC5r.duration = 1000000005/10000000 ∧
      max (longest_end mC5r) 60 = 100 := by
    norm_num +decide [mC5r, mC5, remove_kf, add_kf, recompute_duration, set_duration,
      longest_end, eff_duration, defaultTrackDuration, TICK_SEC, getTrack,
      updateTrack, setdefaultTrack, lookupStr, sortByTime, insertByTime,
      normalize_asset_value, TimelineModel.init, TRACKS, kfC5a, kfC5b, env0,
      List.filter_cons, List.filter_nil, List.foldl_cons, List.foldl_nil,
      lt_abs]
  exact ⟨h1.1, h1.2, by rw [h1.1, h1.2]; norm_num⟩

/-- C2 (amended): `load_json` leaves the model untouched at the two failure
points that precede any mutation — when `json.loads` itself raises (invalid
JSON text) and when `float(doc.get("duration", 60.0))` raises on a parsed
document that survives the `projectFile` step.  (All-or-nothing does not
hold for later failures, see the counterexample.) -/
theorem c2_load_json_abort :
    (∀ (env : Env) (m : TimelineModel),
        load_json env none m = LoadResult.err m) ∧
    (∀ (env : Env) (doc : JValue) (m : TimelineModel),
        project_file_ok doc = true →
        pyFloatOfJson ((doc.getField "duration").getD (.num 60)) = none →
        load_json env (some doc) m = LoadResult.err m) := by
  refine ⟨fun env m => rfl, fun env doc m hpf hdur => ?_⟩
  simp [load_json, load_json_doc, hpf, hdur]

/-- Witness for C2: rejected JSON text leaves `mC2` untouched, and the
valid-JSON document `{"duration": "abc"}` passes the `projectFile` step,
fails the duration `float(...)`, and also leaves `mC2` untouched. -/
theorem c2_load_json_abort_witness :
    load_json env0 none mC2 = LoadResult.err mC2 ∧
    project_file_ok docC2d = true ∧
    pyFloatOfJson ((docC2d.getField "duration").getD (.num 60)) = none ∧
    load_json env0 (some docC2d) mC2 = LoadResult.err mC2 :=
  ⟨c2_load_json_abort.1 env0 mC2, rfl, rfl,
   c2_load_json_abort.2 env0 docC2d mC2 rfl rfl⟩

/-- Counterexample for C2's all-or-nothing reading: the valid-JSON document
`docC2` (one keyframe with non-numeric `t`) makes `load_json` raise after
duration, tracks and `_next_id` were already reset, leaving `errStC2`
behind — which differs from the pre-load state `mC2` in all three
components. -/
theorem c2_counterexample :
    load_json env0 (some docC2) mC2 = LoadResult.err errStC2 ∧
    errStC2.duration ≠ mC2.duration ∧
    errStC2.tracks ≠ mC2.tracks ∧
    errStC2.nextId ≠ mC2.nextId := by
  refine ⟨rfl, by norm_num [errStC2, mC2], ?_, by decide⟩
  intro h
  have hlen := congrArg List.length h
  revert hlen
  decide
